import Mathlib

/-
Shallow embedding of the job-application intake pipeline of this
repository (main.py together with database.py).

External collaborators (the LLM capability used by the classifier and
the summarizer, the embedding capability used by the scorer, the email
transport, the file system, and the SQLite commit outcomes) are
modelled by an environment `Env` of oracle outcomes, one per request.
The persistent store and the observable capability calls are collected
in a `World` record that every operation threads explicitly, in the
style of `f : ... → World → Except PyExn A × World`: a thrown Python
exception is `Except.error`, and the world returned alongside it keeps
all writes performed before the raise (SQLite commits that already
happened are not rolled back by a later exception).

Machine floats are modelled by the rationals; Python round(x, 2) is
modelled by `pyRound2` (the tie-breaking convention differs from the
Python bankers rounding only at exact half-of-a-cent ties, on which no
claim depends). Strings are Lean strings; the Python regex character
class for word characters is modelled over ASCII.
-/

namespace JobApp

/-- Python exceptions that flow through the pipeline: FastAPI
HTTPException (status code plus detail), ValueError, and any other
exception carrying its message. -/
inductive PyExn where
  | http (status : Nat) (detail : String)
  | valueError (msg : String)
  | exn (msg : String)
deriving DecidableEq

/-- Python str(e) on an exception: Starlette HTTPException prints as
"status: detail", other exceptions print their message. -/
def pyStr : PyExn → String
  | PyExn.http s d => toString s ++ ": " ++ d
  | PyExn.valueError m => m
  | PyExn.exn m => m

/-- Row of the applications table (database.py, class Application).
The id and created_at columns are not modelled: no claim mentions
them, and insertion order is kept by the list order. -/
structure Application where
  email : String
  resume_content : String
  job_description : String
  score : ℚ
  email_status : Bool
deriving DecidableEq

/-- Observable state: the two database tables plus the calls made to
the external capabilities (used to state that a stage was or was not
invoked). `email_attempts` records every entry into the send_email
tool as (recipient, subject, body). -/
structure World where
  applications : List Application
  error_logs : List String
  classifier_calls : Nat
  summary_calls : Nat
  embed_calls : Nat
  email_attempts : List (String × String × String)
deriving DecidableEq

/-- Outcome of one ollama.chat call: the call raised, the response was
falsy or had no message field, or a message content came back. -/
inductive LlmResp where
  | raised (msg : String)
  | noMessage
  | content (s : String)
deriving DecidableEq

/-- Outcome of parsing the uploaded document (fitz or python-docx):
the page text before strip, or the exception message. -/
inductive ExtractOutcome where
  | ok (text : String)
  | fail (msg : String)
deriving DecidableEq

/-- Outcome of the embedding-and-cosine computation inside
calculate_score: the similarity value, or the exception message. -/
inductive SimResult where
  | value (q : ℚ)
  | raised (msg : String)
deriving DecidableEq

/-- Per-request oracle for every external collaborator. -/
structure Env where
  file_save_ok : Bool
  extract_result : ExtractOutcome
  classifier_resp : LlmResp
  summarizer_resp : LlmResp
  similarity : SimResult
  send_result : Bool
  save_ok : Bool
  log_ok : Bool
deriving DecidableEq

/-- Python value returned by calculate_score: a float on success, or
the exception message string (the source returns str(e)). -/
inductive ScoreResult where
  | num (q : ℚ)
  | str (s : String)
deriving DecidableEq

/-- The JSON body returned on the success paths of
process_application. -/
structure ResponseBody where
  email : String
  score : ℚ
  email_status : Bool
  message : String
deriving DecidableEq

/-- What the HTTP client observes: a 200 body, an HTTPException turned
into an error response, or an exception escaping the handler
entirely. -/
inductive Response where
  | body (b : ResponseBody)
  | httpError (status : Nat) (detail : String)
  | crash (msg : String)
deriving DecidableEq

/-- Sequencing with exception propagation, keeping the world of the
point of the raise. -/
def andThen {α β : Type} (x : Except PyExn α × World)
    (f : α → World → Except PyExn β × World) : Except PyExn β × World :=
  match x with
  | (Except.ok a, w) => f a w
  | (Except.error e, w) => (Except.error e, w)

/-- A Python try/except block: the handler sees the exception and the
world at the point of the raise. -/
def catchE {α : Type} (x : Except PyExn α × World)
    (h : PyExn → World → Except PyExn α × World) : Except PyExn α × World :=
  match x with
  | (Except.ok a, w) => (Except.ok a, w)
  | (Except.error e, w) => h e w

/-- database.py insert_error_log: try/finally with no except clause,
so a failing commit propagates its exception and the row is not
stored. -/
def insert_error_log (env : Env) (msg : String) (w : World) :
    Except PyExn Unit × World :=
  if env.log_ok then
    (Except.ok (), { w with error_logs := w.error_logs ++ [msg] })
  else
    (Except.error (PyExn.exn "error log insert failed"), w)

/-- The filter of get_exact_application_match: equality on all three
components of the dedup triple. -/
def tripleMatches (email resume_content job_description : String)
    (a : Application) : Bool :=
  a.email == email && a.resume_content == resume_content
    && a.job_description == job_description

/-- database.py get_exact_application_match: first row (in insertion
order) whose triple matches, as returned by query(...).first(). -/
def get_exact_application_match (email resume_content job_description : String) :
    List Application → Option Application
  | [] => none
  | a :: rest =>
    if tripleMatches email resume_content job_description a then some a
    else get_exact_application_match email resume_content job_description rest

/-- database.py update_email_status: flips email_status on the first
row matching the email; returns the updated table and whether a row
was found. -/
def update_email_status (email : String) (status : Bool) :
    List Application → List Application × Bool
  | [] => ([], false)
  | a :: rest =>
    if a.email == email then ({ a with email_status := status } :: rest, true)
    else
      let r := update_email_status email status rest
      (a :: r.fst, r.snd)

/-- database.py save_application: commits a new row and returns true;
any failure is caught, rolled back, and reported as false. It never
raises. -/
def save_application (env : Env) (email resume_content job_description : String)
    (score : ℚ) (email_status : Bool) (w : World) : Except PyExn Bool × World :=
  if env.save_ok then
    (Except.ok true,
      { w with applications :=
          w.applications ++ [⟨email, resume_content, job_description, score, email_status⟩] })
  else
    (Except.ok false, w)

/-- Python str.lower on one character, over the ASCII range the
pipeline compares against. -/
def pyCharLower (c : Char) : Char :=
  if c.isUpper then Char.ofNat (c.toNat + 32) else c

/-- Python str.lower, modelled over the character list so that it is
kernel-reducible. -/
def pyLower (s : String) : String := String.mk (s.toList.map pyCharLower)

/-- Whitespace stripped by Python str.strip. -/
def isSpaceChar (c : Char) : Bool :=
  c == ' ' || c == '\t' || c == '\n' || c == '\r'

/-- Python str.strip: drop whitespace from both ends. -/
def pyStrip (s : String) : String :=
  String.mk (((s.toList.dropWhile isSpaceChar).reverse.dropWhile isSpaceChar).reverse)

/-- Python str.startswith. -/
def pyStartsWith (s pre : String) : Bool :=
  s.toList.take pre.toList.length == pre.toList

/-- Python str.endswith. -/
def pyEndsWith (s suffix : String) : Bool :=
  s.toList.drop (s.toList.length - suffix.toList.length) == suffix.toList
    && decide (suffix.toList.length ≤ s.toList.length)

/-- Characters matched by the regex classes in extract_email, namely
word characters, dots and hyphens (ASCII reading of the Python word
class). -/
def isEmailChar (c : Char) : Bool :=
  c.isAlphanum || c == '_' || c == '.' || c == '-'

/-- One attempted match of the email pattern at the head of the
character list: a nonempty run of email characters, an at sign, then
another nonempty run. -/
def emailMatchAt (cs : List Char) : Option (List Char) :=
  let run1 := cs.takeWhile isEmailChar
  let rest1 := cs.dropWhile isEmailChar
  match run1, rest1 with
  | [], _ => none
  | _, '@' :: rest2 =>
    let run2 := rest2.takeWhile isEmailChar
    if run2 = [] then none else some (run1 ++ '@' :: run2)
  | _, _ => none

/-- Leftmost search of re.search: try each starting position from the
left and return the first successful match. -/
def firstEmailAux : List Char → Option (List Char)
  | [] => none
  | c :: rest =>
    match emailMatchAt (c :: rest) with
    | some m => some m
    | none => firstEmailAux rest

/-- main.py extract_email: the first email-shaped substring, or the
empty string when none exists. The surrounding try/except is dead
because re.search does not raise on strings. -/
def extract_email (text : String) : String :=
  match firstEmailAux text.toList with
  | some m => String.mk m
  | none => ""

/-- Python round(q, 2): round to an integer number of hundredths. -/
def pyRound2 (q : ℚ) : ℚ := (round (q * 100) : ℤ) / 100

/-- The arithmetic of calculate_score on a similarity value:
round(min(100.0, max(0.0, similarity * 100)), 2). -/
def computedScore (sim : ℚ) : ℚ := pyRound2 (min 100 (max 0 (sim * 100)))

/-- main.py extract_text: dispatch on the file-path suffix
(case sensitive, unlike the gate in the orchestrator); the internal
except clause logs and re-raises, so the unsupported-format branch
raises ValueError after logging it, and a parser failure raises its
exception after logging it. On success the page text is stripped. -/
def extract_text (env : Env) (file_path : String) (w : World) :
    Except PyExn String × World :=
  if pyEndsWith file_path ".pdf" || pyEndsWith file_path ".docx" then
    match env.extract_result with
    | ExtractOutcome.ok t => (Except.ok (pyStrip t), w)
    | ExtractOutcome.fail m =>
      andThen (insert_error_log env
          ("Error occurred during extracting the text from the resume: " ++ m) w)
        (fun _ w2 => (Except.error (PyExn.exn m), w2))
  else
    andThen (insert_error_log env
        ("Error occurred during extracting the text from the resume: Unsupported file format. Upload PDF or DOCX.") w)
      (fun _ w2 =>
        (Except.error (PyExn.valueError "Unsupported file format. Upload PDF or DOCX."), w2))

/-- main.py generate_summary: on a raised capability call the except
clause logs and then returns str(e); on a missing message it returns
the marked failure string; otherwise the stripped content. -/
def generate_summary (env : Env) (job_description : String) (w : World) :
    Except PyExn String × World :=
  let w1 := { w with summary_calls := w.summary_calls + 1 }
  match env.summarizer_resp with
  | LlmResp.raised m =>
    andThen (insert_error_log env
        ("Error occurred during generating the summary of the job description from Ollama: " ++ m) w1)
      (fun _ w2 => (Except.ok m, w2))
  | LlmResp.noMessage =>
    (Except.ok "Failed to extract requirements: No response from model", w1)
  | LlmResp.content c => (Except.ok (pyStrip c), w1)

/-- main.py calculate_score: short-circuit to 0.0 on an empty summary
or one marked "Failed to extract", without touching the embedding
model; otherwise embed and score, and on an internal exception log and
return str(e). -/
def calculate_score (env : Env) (resume_text job_summary : String) (w : World) :
    Except PyExn ScoreResult × World :=
  if job_summary == "" || pyStartsWith job_summary "Failed to extract" then
    (Except.ok (ScoreResult.num 0), w)
  else
    let w1 := { w with embed_calls := w.embed_calls + 1 }
    match env.similarity with
    | SimResult.value s => (Except.ok (ScoreResult.num (computedScore s)), w1)
    | SimResult.raised m =>
      andThen (insert_error_log env
          ("Error occurred during calculating the cosine similarity score: " ++ m) w1)
        (fun _ w2 => (Except.ok (ScoreResult.str m), w2))

/-- main.py validate_resume: one classifier call; a raised call is
logged and classified false, a missing message is false, and a content
answer is stripped, lowercased and compared to the token true. -/
def validate_resume (env : Env) (text : String) (w : World) :
    Except PyExn Bool × World :=
  let w1 := { w with classifier_calls := w.classifier_calls + 1 }
  match env.classifier_resp with
  | LlmResp.raised m =>
    andThen (insert_error_log env ("Error occurred during resume validation: " ++ m) w1)
      (fun _ w2 => (Except.ok false, w2))
  | LlmResp.noMessage => (Except.ok false, w1)
  | LlmResp.content c => (Except.ok (pyLower (pyStrip c) == "true"), w1)

/-- The boolean the classifier stage yields for a given environment:
true exactly when a content answer strips and lowercases to the token
true. -/
def classifierAccepts (env : Env) : Bool :=
  match env.classifier_resp with
  | LlmResp.content c => pyLower (pyStrip c) == "true"
  | _ => false

/-- main.py send_email: entering the tool records one delivery attempt
against the transport; a missing key or a transport exception is
caught, logged, and reported as false, so the tool never raises except
through a failing error log. -/
def send_email (env : Env) (email subject body : String) (w : World) :
    Except PyExn Bool × World :=
  let w1 := { w with email_attempts := w.email_attempts ++ [(email, subject, body)] }
  if env.send_result then (Except.ok true, w1)
  else
    andThen (insert_error_log env
        "Error occurred during sending the email from Resend tool: send failed" w1)
      (fun _ w2 => (Except.ok false, w2))

/-- Subject line of the interview invitation. -/
def invitationSubject : String := "Interview Invitation - Next Steps"

/-- Body of the interview invitation; the template text of the source
is abbreviated to the parts the claims can observe (the score
interpolation and the booking link). -/
def invitationBody (score : ℚ) : String :=
  "Congratulations! Based on your application review (Match Score: "
    ++ toString score
    ++ "%), we would like to invite you for an interview. Please schedule your interview using the link below: https://interview-slot-test.youcanbook.me/"

/-- main.py send_interview_invitation: on a confirmed send, flip the
stored email_status by email and report true; a failed send reports
false; any exception is caught, logged and reported false. -/
def send_interview_invitation (env : Env) (email : String) (score : ℚ) (w : World) :
    Except PyExn Bool × World :=
  catchE
    (andThen (send_email env email invitationSubject (invitationBody score) w)
      (fun sent w2 =>
        if sent then
          (Except.ok true,
            { w2 with applications := (update_email_status email true w2.applications).fst })
        else (Except.ok false, w2)))
    (fun e w2 =>
      andThen (insert_error_log env
          ("Error occurred during sending the interview invitation email: " ++ pyStr e) w2)
        (fun _ w3 => (Except.ok false, w3)))

/-- The file-save step of the orchestrator (the try/except around
shutil.copyfileobj): log and raise a 500 on failure. -/
def saveUploadStep (env : Env) (w : World) : Except PyExn Unit × World :=
  if env.file_save_ok then (Except.ok (), w)
  else
    andThen (insert_error_log env "Failed to save uploaded file: write failed" w)
      (fun _ w2 =>
        (Except.error (PyExn.http 500 "Failed to save uploaded file: write failed"), w2))

/-- The extract step of the orchestrator: ValueError maps to a logged
400, every other exception to a logged 422. -/
def extractStep (env : Env) (file_path : String) (w : World) :
    Except PyExn String × World :=
  catchE (extract_text env file_path w)
    (fun e w2 =>
      match e with
      | PyExn.valueError m =>
        andThen (insert_error_log env
            ("Value error occurred during extracting the text from the resume: " ++ m) w2)
          (fun _ w3 => (Except.error (PyExn.http 400 m), w3))
      | other =>
        andThen (insert_error_log env
            ("Failed to extract text from resume: " ++ pyStr other) w2)
          (fun _ w3 =>
            (Except.error (PyExn.http 422 ("Failed to extract text from resume: " ++ pyStr other)), w3)))

/-- The summary step of the orchestrator: the try block raises a 422
when the returned summary starts with "Error"; the except clause
catches every exception, including that HTTPException, logs, and
raises a fresh 422. -/
def summaryStep (env : Env) (job_description : String) (w : World) :
    Except PyExn String × World :=
  catchE
    (andThen (generate_summary env job_description w)
      (fun job_summary w2 =>
        if pyStartsWith job_summary "Error" then
          andThen (insert_error_log env
              ("Not an exception but failed to generate job summary: " ++ job_summary) w2)
            (fun _ w3 =>
              (Except.error (PyExn.http 422 ("Failed to generate job summary: " ++ job_summary)), w3))
        else (Except.ok job_summary, w2)))
    (fun e w2 =>
      andThen (insert_error_log env
          ("Exception occured: Failed to generate job summary: " ++ pyStr e) w2)
        (fun _ w3 =>
          (Except.error (PyExn.http 422 ("Failed to generate job summary: " ++ pyStr e)), w3)))

/-- The score step of the orchestrator: a non-float result raises a
422 from the try block; the except clause catches everything, logs,
and raises a fresh 422. -/
def scoreStep (env : Env) (resume_content job_summary : String) (w : World) :
    Except PyExn ℚ × World :=
  catchE
    (andThen (calculate_score env resume_content job_summary w)
      (fun score w2 =>
        match score with
        | ScoreResult.num q => (Except.ok q, w2)
        | ScoreResult.str s =>
          andThen (insert_error_log env
              ("Not an exception but failed to calculate score: " ++ s) w2)
            (fun _ w3 =>
              (Except.error (PyExn.http 422 ("Failed to calculate score: " ++ s)), w3))))
    (fun e w2 =>
      andThen (insert_error_log env
          ("Exception occured: Failed to calculate score: " ++ pyStr e) w2)
        (fun _ w3 =>
          (Except.error (PyExn.http 422 ("Failed to calculate score: " ++ pyStr e)), w3)))

/-- The threshold gate of the orchestrator: at score 70 and above
attempt the invitation and build the message; below, skip it. Returns
(email_sent, email_message). -/
def notifyStep (env : Env) (email : String) (score : ℚ) (w : World) :
    Except PyExn (Bool × String) × World :=
  if 70 ≤ score then
    catchE
      (andThen (send_interview_invitation env email score w)
        (fun ok w2 =>
          if ok then
            (Except.ok (true,
              "Candidate has passed the eligibility for interview and interview invitation sent successfully"), w2)
          else
            (Except.ok (false,
              "Candidate has passed the eligibility for interview, but failed to send the email"), w2)))
      (fun e w2 =>
        andThen (insert_error_log env ("Failed to send interview invitation: " ++ pyStr e) w2)
          (fun _ w3 =>
            (Except.ok (false,
              "Candidate has passed the eligibility for interview, but failed to send the email"), w3)))
  else
    (Except.ok (false, "Candidate did not meet the minimum score requirement"), w)

/-- The persistence step of the orchestrator: save_application is
wrapped in a try/except mapping exceptions to a 500, but its boolean
result is ignored and it never raises, so the handler is dead code
exactly as in the source. -/
def saveStep (env : Env) (email resume_content job_description : String)
    (score : ℚ) (email_sent : Bool) (w : World) : Except PyExn Bool × World :=
  catchE (save_application env email resume_content job_description score email_sent w)
    (fun e w2 =>
      (Except.error (PyExn.http 500 ("Failed to save application to database: " ++ pyStr e)), w2))

/-- Body of the big inner try of process_application: dedup lookup,
then summary, score, threshold gate, persistence and the success
body. -/
def innerBody (env : Env) (email resume_content job_description : String) (w : World) :
    Except PyExn ResponseBody × World :=
  match get_exact_application_match email resume_content job_description w.applications with
  | some existing_app =>
    (Except.ok ⟨email, existing_app.score, existing_app.email_status,
      "Retrieved existing application score from database"⟩, w)
  | none =>
    andThen (summaryStep env job_description w)
      (fun job_summary w2 =>
        andThen (scoreStep env resume_content job_summary w2)
          (fun score w3 =>
            andThen (notifyStep env email score w3)
              (fun sentMsg w4 =>
                andThen (saveStep env email resume_content job_description score sentMsg.fst w4)
                  (fun _ w5 =>
                    (Except.ok ⟨email, score, sentMsg.fst, sentMsg.snd⟩, w5)))))

/-- The except clauses of the big inner try: HTTPException is
re-raised, anything else becomes a 500 without a log entry. -/
def innerHandler (e : PyExn) (w : World) : Except PyExn ResponseBody × World :=
  match e with
  | PyExn.http s d => (Except.error (PyExn.http s d), w)
  | other =>
    (Except.error (PyExn.http 500 ("Internal server error: " ++ pyStr other)), w)

/-- The big inner try of process_application. -/
def innerBlock (env : Env) (email resume_content job_description : String) (w : World) :
    Except PyExn ResponseBody × World :=
  catchE (innerBody env email resume_content job_description w) innerHandler

/-- Everything inside the outer try of process_application: format
gate, upload save, extract, classify, find email, then the inner
block. -/
def process_request_main (env : Env) (filename job_description : String) (w : World) :
    Except PyExn ResponseBody × World :=
  if pyEndsWith (pyLower filename) ".pdf" || pyEndsWith (pyLower filename) ".docx" then
    let file_path := "uploads/" ++ filename
    andThen (saveUploadStep env w)
      (fun _ w1 =>
        andThen (extractStep env file_path w1)
          (fun resume_content w2 =>
            andThen (validate_resume env resume_content w2)
              (fun isResume w3 =>
                if isResume then
                  let email := extract_email resume_content
                  if email == "" then
                    andThen (insert_error_log env "No email address found in resume" w3)
                      (fun _ w4 =>
                        (Except.error (PyExn.http 400 "No email address found in resume"), w4))
                  else innerBlock env email resume_content job_description w3
                else
                  andThen (insert_error_log env "Uploaded document is not a resume" w3)
                    (fun _ w4 =>
                      (Except.error (PyExn.http 400
                        "The uploaded document does not appear to be a resume. Please upload a valid resume document."), w4)))))
  else
    andThen (insert_error_log env
        ("Invalid file format. Only PDF and DOCX files are supported. File name: " ++ filename) w)
      (fun _ w1 =>
        (Except.error (PyExn.http 400 "Invalid file format. Only PDF and DOCX files are supported."), w1))

/-- The outer except clauses of process_application: HTTPException is
re-raised, anything else is logged and becomes a 500. -/
def outerHandler (env : Env) (e : PyExn) (w : World) : Except PyExn ResponseBody × World :=
  match e with
  | PyExn.http s d => (Except.error (PyExn.http s d), w)
  | other =>
    andThen (insert_error_log env
        ("Error occurred during processing the job application: " ++ pyStr other) w)
      (fun _ w2 =>
        (Except.error (PyExn.http 500
          ("Error occurred during processing the job application: " ++ pyStr other)), w2))

/-- main.py process_application as a whole. -/
def process_request (env : Env) (filename job_description : String) (w : World) :
    Except PyExn ResponseBody × World :=
  catchE (process_request_main env filename job_description w) (outerHandler env)

/-- What the HTTP framework makes of the handler outcome: a body, an
HTTPException response, or a crash for an exception escaping the
handler. -/
def handle_request (env : Env) (filename job_description : String) (w : World) :
    Response × World :=
  match process_request env filename job_description w with
  | (Except.ok b, w2) => (Response.body b, w2)
  | (Except.error (PyExn.http s d), w2) => (Response.httpError s d, w2)
  | (Except.error e, w2) => (Response.crash (pyStr e), w2)

/-- A response that is not a 200 body. -/
def isFailure : Response → Bool
  | Response.body _ => false
  | _ => true

/-- Number of stored rows matching the dedup triple. -/
def countTriple (email resume_content job_description : String)
    (apps : List Application) : Nat :=
  apps.countP (fun a => tripleMatches email resume_content job_description a)

/-- The empty store with no capability calls recorded. -/
def wEmpty : World := ⟨[], [], 0, 0, 0, []⟩

/-- With a working log store, insert_error_log appends one row. -/
lemma insert_error_log_ok (env : Env) (msg : String) (w : World)
    (hLog : env.log_ok = true) :
    insert_error_log env msg w
      = (Except.ok (), { w with error_logs := w.error_logs ++ [msg] }) := by
  simp [insert_error_log, hLog]

/-- When the classifier answer strips and lowercases to true, the
validation step returns true and only records the classifier call. -/
lemma validate_resume_accepts (env : Env) (text : String) (w : World)
    (hCls : classifierAccepts env = true) :
    validate_resume env text w
      = (Except.ok true, { w with classifier_calls := w.classifier_calls + 1 }) := by
  unfold validate_resume classifierAccepts at *
  cases h : env.classifier_resp <;> simp [h] at hCls ⊢
  exact hCls

/-- When the classifier does not accept, the validation step returns
false, recording the call and possibly one error-log row. -/
lemma validate_resume_rejects (env : Env) (text : String) (w : World)
    (hLog : env.log_ok = true) (hCls : classifierAccepts env = false) :
    ∃ extra, validate_resume env text w
      = (Except.ok false,
          { w with classifier_calls := w.classifier_calls + 1,
                   error_logs := w.error_logs ++ extra }) := by
  unfold validate_resume classifierAccepts at *
  cases h : env.classifier_resp <;>
    simp [h, insert_error_log, hLog, andThen] at hCls ⊢
  exact hCls

/-- A good summarizer answer whose stripped content is not marked
"Error" passes the summary step, recording only the capability
call. -/
lemma summaryStep_content (env : Env) (jd : String) (w : World) (js : String)
    (hSumm : env.summarizer_resp = LlmResp.content js)
    (hNotErr : pyStartsWith (pyStrip js) "Error" = false) :
    summaryStep env jd w
      = (Except.ok (pyStrip js), { w with summary_calls := w.summary_calls + 1 }) := by
  unfold summaryStep generate_summary
  rw [hSumm]
  simp [andThen, catchE, hNotErr]

/-- A job summary that is neither empty nor marked "Failed to extract"
is scored from the similarity oracle, recording one embedding call. -/
lemma scoreStep_value (env : Env) (rc js : String) (w : World) (sim : ℚ)
    (hNS : (js == "" || pyStartsWith js "Failed to extract") = false)
    (hSim : env.similarity = SimResult.value sim) :
    scoreStep env rc js w
      = (Except.ok (computedScore sim), { w with embed_calls := w.embed_calls + 1 }) := by
  unfold scoreStep calculate_score
  rw [hNS, hSim]
  simp [andThen, catchE]

/-- Below the threshold, the gate skips notification entirely. -/
lemma notifyStep_low (env : Env) (email : String) (score : ℚ) (w : World)
    (hLow : ¬ (70 ≤ score)) :
    notifyStep env email score w
      = (Except.ok (false, "Candidate did not meet the minimum score requirement"), w) := by
  unfold notifyStep
  rw [if_neg hLow]

/-- At or above the threshold with a confirmed send: one delivery
attempt is recorded, the stored email_status is flipped by email, and
the gate reports success. -/
lemma notifyStep_high_sent (env : Env) (email : String) (score : ℚ) (w : World)
    (hHigh : 70 ≤ score) (hSend : env.send_result = true) :
    notifyStep env email score w
      = (Except.ok (true,
          "Candidate has passed the eligibility for interview and interview invitation sent successfully"),
         { w with
             applications := (update_email_status email true w.applications).fst,
             email_attempts := w.email_attempts
               ++ [(email, invitationSubject, invitationBody score)] }) := by
  unfold notifyStep send_interview_invitation send_email
  rw [if_pos hHigh, hSend]
  simp [andThen, catchE]

/-- At or above the threshold with a failed send: the attempt and its
error-log row are recorded, no status is flipped, and the gate reports
the partial failure. -/
lemma notifyStep_high_unsent (env : Env) (email : String) (score : ℚ) (w : World)
    (hHigh : 70 ≤ score) (hSend : env.send_result = false) (hLog : env.log_ok = true) :
    notifyStep env email score w
      = (Except.ok (false,
          "Candidate has passed the eligibility for interview, but failed to send the email"),
         { w with
             error_logs := w.error_logs
               ++ ["Error occurred during sending the email from Resend tool: send failed"],
             email_attempts := w.email_attempts
               ++ [(email, invitationSubject, invitationBody score)] }) := by
  unfold notifyStep send_interview_invitation send_email
  rw [if_pos hHigh, hSend]
  simp [andThen, catchE, insert_error_log, hLog]

/-- A working database commit appends exactly the new row. -/
lemma saveStep_ok (env : Env) (email rc jd : String) (score : ℚ) (sent : Bool)
    (w : World) (hSave : env.save_ok = true) :
    saveStep env email rc jd score sent w
      = (Except.ok true,
          { w with applications := w.applications ++ [⟨email, rc, jd, score, sent⟩] }) := by
  simp [saveStep, save_application, hSave, catchE]

/-- A failing database commit is swallowed: save_application reports
false, nothing is stored, and no exception reaches the handler. -/
lemma saveStep_swallowed (env : Env) (email rc jd : String) (score : ℚ) (sent : Bool)
    (w : World) (hSave : env.save_ok = false) :
    saveStep env email rc jd score sent w = (Except.ok false, w) := by
  simp [saveStep, save_application, hSave, catchE]

/-- The inner block only ever produces a body or an HTTPException, so
the outer except clauses pass its outcome through unchanged. -/
lemma outer_absorbs_inner (env : Env) (email rc jd : String) (w : World) :
    catchE (innerBlock env email rc jd w) (outerHandler env)
      = innerBlock env email rc jd w := by
  unfold innerBlock
  rcases h : innerBody env email rc jd w with ⟨r, w2⟩
  cases r with
  | ok b => simp [catchE]
  | error ex => cases ex <;> simp [catchE, innerHandler, outerHandler]

/-- Any request passing the format gate, the upload save, extraction,
classification and email discovery reaches the dedup lookup with only
the classifier call recorded. -/
lemma reach_lookup (env : Env) (filename jd : String) (w : World) (t email : String)
    (hGate : (pyEndsWith (pyLower filename) ".pdf" || pyEndsWith (pyLower filename) ".docx") = true)
    (hPath : (pyEndsWith ("uploads/" ++ filename) ".pdf"
        || pyEndsWith ("uploads/" ++ filename) ".docx") = true)
    (hFS : env.file_save_ok = true)
    (hExtract : env.extract_result = ExtractOutcome.ok t)
    (hCls : classifierAccepts env = true)
    (hEmailEq : extract_email (pyStrip t) = email)
    (hEmail : email ≠ "") :
    process_request env filename jd w
      = innerBlock env email (pyStrip t) jd
          { w with classifier_calls := w.classifier_calls + 1 } := by
  unfold process_request process_request_main saveUploadStep extractStep extract_text
  rw [hGate]
  simp only [if_pos rfl, hFS, if_true, andThen, hPath, hExtract, catchE]
  rw [validate_resume_accepts env _ _ hCls]
  simp only [andThen, if_true, hEmailEq]
  rw [if_neg (by simpa using hEmail)]
  exact outer_absorbs_inner env email (pyStrip t) jd _

/-- A dedup hit returns the stored score and status untouched. -/
lemma innerBlock_hit (env : Env) (email rc jd : String) (w : World) (app : Application)
    (hHit : get_exact_application_match email rc jd w.applications = some app) :
    innerBlock env email rc jd w
      = (Except.ok ⟨email, app.score, app.email_status,
          "Retrieved existing application score from database"⟩, w) := by
  unfold innerBlock innerBody
  rw [hHit]
  simp [catchE]

/-- The dedup filter ignores the email_status column. -/
lemma tripleMatches_set_status (email rc jd : String) (a : Application) (b : Bool) :
    tripleMatches email rc jd { a with email_status := b }
      = tripleMatches email rc jd a := rfl

/-- A row built from the triple matches its own triple. -/
lemma tripleMatches_self (email rc jd : String) (score : ℚ) (b : Bool) :
    tripleMatches email rc jd ⟨email, rc, jd, score, b⟩ = true := by
  simp [tripleMatches]

/-- Searching an appended table first exhausts the miss on the
prefix. -/
lemma gem_append_of_none (email rc jd : String) (l1 l2 : List Application)
    (h : get_exact_application_match email rc jd l1 = none) :
    get_exact_application_match email rc jd (l1 ++ l2)
      = get_exact_application_match email rc jd l2 := by
  induction l1 with
  | nil => simp
  | cons a rest ih =>
    simp only [List.cons_append, get_exact_application_match] at h ⊢
    rcases hm : tripleMatches email rc jd a with _ | _
    · simp only [hm, Bool.false_eq_true, if_false] at h ⊢
      exact ih h
    · simp [hm] at h

/-- Flipping a status by email never creates a triple match. -/
lemma gem_update_of_none (email rc jd e2 : String) (b : Bool) (apps : List Application)
    (h : get_exact_application_match email rc jd apps = none) :
    get_exact_application_match email rc jd (update_email_status e2 b apps).fst = none := by
  induction apps with
  | nil => simpa using h
  | cons a rest ih =>
    unfold get_exact_application_match at h
    rcases hm : tripleMatches email rc jd a with _ | _
    · simp only [hm, Bool.false_eq_true, if_false] at h
      unfold update_email_status
      rcases he : a.email == e2 with _ | _
      · simp only [Bool.false_eq_true, if_false]
        unfold get_exact_application_match
        simp only [hm, Bool.false_eq_true, if_false]
        exact ih h
      · simp only [if_true]
        unfold get_exact_application_match
        rw [tripleMatches_set_status]
        simp only [hm, Bool.false_eq_true, if_false]
        exact h
    · simp [hm] at h

/-- A miss of the dedup lookup means no row matches the triple. -/
lemma countTriple_zero_of_none (email rc jd : String) (apps : List Application)
    (h : get_exact_application_match email rc jd apps = none) :
    countTriple email rc jd apps = 0 := by
  induction apps with
  | nil => simp [countTriple]
  | cons a rest ih =>
    unfold get_exact_application_match at h
    rcases hm : tripleMatches email rc jd a with _ | _
    · simp only [hm, Bool.false_eq_true, if_false] at h
      simpa [countTriple, List.countP_cons, hm] using ih h
    · simp [hm] at h

/-- Flipping a status by email keeps the triple count. -/
lemma countTriple_update (email rc jd e2 : String) (b : Bool) (apps : List Application) :
    countTriple email rc jd (update_email_status e2 b apps).fst
      = countTriple email rc jd apps := by
  induction apps with
  | nil => simp [update_email_status]
  | cons a rest ih =>
    unfold update_email_status
    rcases he : a.email == e2 with _ | _
    · simp only [Bool.false_eq_true, if_false]
      simp [countTriple, List.countP_cons] at ih ⊢
      omega
    · simp only [if_true]
      simp [countTriple, List.countP_cons, tripleMatches_set_status]

/-- The triple count distributes over appended tables. -/
lemma countTriple_append (email rc jd : String) (l1 l2 : List Application) :
    countTriple email rc jd (l1 ++ l2)
      = countTriple email rc jd l1 + countTriple email rc jd l2 := by
  simp [countTriple, List.countP_append]

/-- When no stored row carries the email, the status update is a
no-op on the table. -/
lemma update_email_status_noop (email : String) (b : Bool) (apps : List Application)
    (h : ∀ a ∈ apps, a.email ≠ email) :
    (update_email_status email b apps).fst = apps := by
  induction apps with
  | nil => simp [update_email_status]
  | cons a rest ih =>
    unfold update_email_status
    have ha : (a.email == email) = false := by
      simpa using h a (by simp)
    simp only [ha, Bool.false_eq_true, if_false]
    simp only [List.cons.injEq, true_and]
    exact ih (fun x hx => h x (by simp [hx]))

/-- The status update rewrites exactly the first row carrying the
email and nothing else. -/
lemma update_email_status_first (email : String) (b : Bool)
    (pre : List Application) (a : Application) (post : List Application)
    (hpre : ∀ x ∈ pre, x.email ≠ email) (ha : a.email = email) :
    (update_email_status email b (pre ++ a :: post)).fst
      = pre ++ { a with email_status := b } :: post := by
  induction pre with
  | nil =>
    unfold update_email_status
    simp [ha]
  | cons p rest ih =>
    unfold update_email_status
    have hp : (p.email == email) = false := by
      simpa using hpre p (by simp)
    simp only [List.cons_append, hp, Bool.false_eq_true, if_false]
    simp only [List.cons.injEq, true_and]
    exact ih (fun x hx => hpre x (by simp [hx]))

/-- The rounded clamp stays within the clamp bounds. -/
lemma pyRound2_bounds (y : ℚ) (h0 : 0 ≤ y) (h1 : y ≤ 100) :
    0 ≤ pyRound2 y ∧ pyRound2 y ≤ 100 := by
  have hlo : (0 : ℤ) ≤ round (y * 100) := by
    rw [round_eq]
    exact Int.le_floor.mpr (by push_cast; linarith)
  have hhi : round (y * 100) ≤ 10000 := by
    rw [round_eq]
    have : ⌊y * 100 + 1 / 2⌋ ≤ ⌊(10000 : ℚ) + 1 / 2⌋ := by
      apply Int.floor_le_floor
      linarith
    have h2 : ⌊(10000 : ℚ) + 1 / 2⌋ = 10000 := by norm_num [Int.floor_eq_iff]
    omega
  constructor
  · unfold pyRound2
    positivity
  · unfold pyRound2
    rw [div_le_iff₀ (by norm_num)]
    calc ((round (y * 100) : ℤ) : ℚ) ≤ ((10000 : ℤ) : ℚ) := by exact_mod_cast hhi
    _ = 100 * 100 := by norm_num

/-- The score arithmetic lands in [0, 100]. -/
lemma computedScore_bounds (sim : ℚ) :
    0 ≤ computedScore sim ∧ computedScore sim ≤ 100 := by
  unfold computedScore
  apply pyRound2_bounds
  · exact le_min (by norm_num) (le_max_left 0 (sim * 100))
  · exact min_le_left 100 (max 0 (sim * 100))

/-- The rounded value is an integer number of hundredths. -/
lemma pyRound2_twoDec (y : ℚ) : ∃ n : ℤ, pyRound2 y = (n : ℚ) / 100 :=
  ⟨round (y * 100), rfl⟩

/-- A fresh request scoring below the threshold: no notification
attempt, one row appended with the flag false. -/
lemma innerBlock_fresh_low (env : Env) (email rc jd : String) (w : World)
    (js : String) (sim : ℚ)
    (hMiss : get_exact_application_match email rc jd w.applications = none)
    (hSumm : env.summarizer_resp = LlmResp.content js)
    (hNotErr : pyStartsWith (pyStrip js) "Error" = false)
    (hNotSent : (pyStrip js == "" || pyStartsWith (pyStrip js) "Failed to extract") = false)
    (hSim : env.similarity = SimResult.value sim)
    (hLow : ¬ (70 ≤ computedScore sim))
    (hSave : env.save_ok = true) :
    innerBlock env email rc jd w
      = (Except.ok ⟨email, computedScore sim, false,
          "Candidate did not meet the minimum score requirement"⟩,
         { w with
             summary_calls := w.summary_calls + 1,
             embed_calls := w.embed_calls + 1,
             applications := w.applications
               ++ [⟨email, rc, jd, computedScore sim, false⟩] }) := by
  unfold innerBlock innerBody
  rw [hMiss]
  rw [summaryStep_content env jd _ js hSumm hNotErr]
  simp only [andThen]
  rw [scoreStep_value env rc (pyStrip js) _ sim hNotSent hSim]
  simp only [andThen]
  rw [notifyStep_low env email _ _ hLow]
  simp only [andThen]
  rw [saveStep_ok env email rc jd _ _ _ hSave]
  simp [catchE]

/-- A fresh request at or above the threshold with a confirmed send:
one attempt recorded, the stored status flipped by email, one new row
appended with the flag true. -/
lemma innerBlock_fresh_high_sent (env : Env) (email rc jd : String) (w : World)
    (js : String) (sim : ℚ)
    (hMiss : get_exact_application_match email rc jd w.applications = none)
    (hSumm : env.summarizer_resp = LlmResp.content js)
    (hNotErr : pyStartsWith (pyStrip js) "Error" = false)
    (hNotSent : (pyStrip js == "" || pyStartsWith (pyStrip js) "Failed to extract") = false)
    (hSim : env.similarity = SimResult.value sim)
    (hHigh : 70 ≤ computedScore sim)
    (hSend : env.send_result = true)
    (hSave : env.save_ok = true) :
    innerBlock env email rc jd w
      = (Except.ok ⟨email, computedScore sim, true,
          "Candidate has passed the eligibility for interview and interview invitation sent successfully"⟩,
         { w with
             summary_calls := w.summary_calls + 1,
             embed_calls := w.embed_calls + 1,
             email_attempts := w.email_attempts
               ++ [(email, invitationSubject, invitationBody (computedScore sim))],
             applications := (update_email_status email true w.applications).fst
               ++ [⟨email, rc, jd, computedScore sim, true⟩] }) := by
  unfold innerBlock innerBody
  rw [hMiss]
  rw [summaryStep_content env jd _ js hSumm hNotErr]
  simp only [andThen]
  rw [scoreStep_value env rc (pyStrip js) _ sim hNotSent hSim]
  simp only [andThen]
  rw [notifyStep_high_sent env email _ _ hHigh hSend]
  simp only [andThen]
  rw [saveStep_ok env email rc jd _ _ _ hSave]
  simp [catchE]

/-- A fresh request at or above the threshold with a failed send: one
attempt recorded and logged, nothing flipped, one new row appended
with the flag false, and a message noting the partial failure. -/
lemma innerBlock_fresh_high_unsent (env : Env) (email rc jd : String) (w : World)
    (js : String) (sim : ℚ)
    (hMiss : get_exact_application_match email rc jd w.applications = none)
    (hSumm : env.summarizer_resp = LlmResp.content js)
    (hNotErr : pyStartsWith (pyStrip js) "Error" = false)
    (hNotSent : (pyStrip js == "" || pyStartsWith (pyStrip js) "Failed to extract") = false)
    (hSim : env.similarity = SimResult.value sim)
    (hHigh : 70 ≤ computedScore sim)
    (hSend : env.send_result = false)
    (hLog : env.log_ok = true)
    (hSave : env.save_ok = true) :
    innerBlock env email rc jd w
      = (Except.ok ⟨email, computedScore sim, false,
          "Candidate has passed the eligibility for interview, but failed to send the email"⟩,
         { w with
             summary_calls := w.summary_calls + 1,
             embed_calls := w.embed_calls + 1,
             error_logs := w.error_logs
               ++ ["Error occurred during sending the email from Resend tool: send failed"],
             email_attempts := w.email_attempts
               ++ [(email, invitationSubject, invitationBody (computedScore sim))],
             applications := w.applications
               ++ [⟨email, rc, jd, computedScore sim, false⟩] }) := by
  unfold innerBlock innerBody
  rw [hMiss]
  rw [summaryStep_content env jd _ js hSumm hNotErr]
  simp only [andThen]
  rw [scoreStep_value env rc (pyStrip js) _ sim hNotSent hSim]
  simp only [andThen]
  rw [notifyStep_high_unsent env email _ _ hHigh hSend hLog]
  simp only [andThen]
  rw [saveStep_ok env email rc jd _ _ _ hSave]
  simp [catchE]

/-- A fresh request whose database commit fails: the failure is
swallowed, a success body with the computed score is still returned,
and no row is stored. -/
lemma innerBlock_fresh_low_nosave (env : Env) (email rc jd : String) (w : World)
    (js : String) (sim : ℚ)
    (hMiss : get_exact_application_match email rc jd w.applications = none)
    (hSumm : env.summarizer_resp = LlmResp.content js)
    (hNotErr : pyStartsWith (pyStrip js) "Error" = false)
    (hNotSent : (pyStrip js == "" || pyStartsWith (pyStrip js) "Failed to extract") = false)
    (hSim : env.similarity = SimResult.value sim)
    (hLow : ¬ (70 ≤ computedScore sim))
    (hSave : env.save_ok = false) :
    innerBlock env email rc jd w
      = (Except.ok ⟨email, computedScore sim, false,
          "Candidate did not meet the minimum score requirement"⟩,
         { w with
             summary_calls := w.summary_calls + 1,
             embed_calls := w.embed_calls + 1 }) := by
  unfold innerBlock innerBody
  rw [hMiss]
  rw [summaryStep_content env jd _ js hSumm hNotErr]
  simp only [andThen]
  rw [scoreStep_value env rc (pyStrip js) _ sim hNotSent hSim]
  simp only [andThen]
  rw [notifyStep_low env email _ _ hLow]
  simp only [andThen]
  rw [saveStep_swallowed env email rc jd _ _ _ hSave]
  simp [catchE]

/-- A dedup hit observed at the interface: stored values come back,
and the world shows only the classifier call. -/
lemma handle_hit (env : Env) (filename jd : String) (w : World) (t email : String)
    (app : Application)
    (hGate : (pyEndsWith (pyLower filename) ".pdf" || pyEndsWith (pyLower filename) ".docx") = true)
    (hPath : (pyEndsWith ("uploads/" ++ filename) ".pdf"
        || pyEndsWith ("uploads/" ++ filename) ".docx") = true)
    (hFS : env.file_save_ok = true)
    (hExtract : env.extract_result = ExtractOutcome.ok t)
    (hCls : classifierAccepts env = true)
    (hEq : extract_email (pyStrip t) = email)
    (hNe : email ≠ "")
    (hHit : get_exact_application_match email (pyStrip t) jd w.applications = some app) :
    handle_request env filename jd w
      = (Response.body ⟨email, app.score, app.email_status,
          "Retrieved existing application score from database"⟩,
         { w with classifier_calls := w.classifier_calls + 1 }) := by
  unfold handle_request
  rw [reach_lookup env filename jd w t email hGate hPath hFS hExtract hCls hEq hNe]
  rw [innerBlock_hit env email (pyStrip t) jd
    { w with classifier_calls := w.classifier_calls + 1 } app hHit]

/-- A fresh below-threshold request observed at the interface. -/
lemma handle_fresh_low (env : Env) (filename jd : String) (w : World)
    (t email js : String) (sim : ℚ)
    (hGate : (pyEndsWith (pyLower filename) ".pdf" || pyEndsWith (pyLower filename) ".docx") = true)
    (hPath : (pyEndsWith ("uploads/" ++ filename) ".pdf"
        || pyEndsWith ("uploads/" ++ filename) ".docx") = true)
    (hFS : env.file_save_ok = true)
    (hExtract : env.extract_result = ExtractOutcome.ok t)
    (hCls : classifierAccepts env = true)
    (hEq : extract_email (pyStrip t) = email)
    (hNe : email ≠ "")
    (hMiss : get_exact_application_match email (pyStrip t) jd w.applications = none)
    (hSumm : env.summarizer_resp = LlmResp.content js)
    (hNotErr : pyStartsWith (pyStrip js) "Error" = false)
    (hNotSent : (pyStrip js == "" || pyStartsWith (pyStrip js) "Failed to extract") = false)
    (hSim : env.similarity = SimResult.value sim)
    (hLow : ¬ (70 ≤ computedScore sim))
    (hSave : env.save_ok = true) :
    handle_request env filename jd w
      = (Response.body ⟨email, computedScore sim, false,
          "Candidate did not meet the minimum score requirement"⟩,
         { w with
             classifier_calls := w.classifier_calls + 1,
             summary_calls := w.summary_calls + 1,
             embed_calls := w.embed_calls + 1,
             applications := w.applications
               ++ [⟨email, (pyStrip t), jd, computedScore sim, false⟩] }) := by
  unfold handle_request
  rw [reach_lookup env filename jd w t email hGate hPath hFS hExtract hCls hEq hNe]
  rw [innerBlock_fresh_low env email (pyStrip t) jd
    { w with classifier_calls := w.classifier_calls + 1 } js sim hMiss hSumm
    hNotErr hNotSent hSim hLow hSave]

/-- A fresh at-or-above-threshold request with a confirmed send,
observed at the interface. -/
lemma handle_fresh_high_sent (env : Env) (filename jd : String) (w : World)
    (t email js : String) (sim : ℚ)
    (hGate : (pyEndsWith (pyLower filename) ".pdf" || pyEndsWith (pyLower filename) ".docx") = true)
    (hPath : (pyEndsWith ("uploads/" ++ filename) ".pdf"
        || pyEndsWith ("uploads/" ++ filename) ".docx") = true)
    (hFS : env.file_save_ok = true)
    (hExtract : env.extract_result = ExtractOutcome.ok t)
    (hCls : classifierAccepts env = true)
    (hEq : extract_email (pyStrip t) = email)
    (hNe : email ≠ "")
    (hMiss : get_exact_application_match email (pyStrip t) jd w.applications = none)
    (hSumm : env.summarizer_resp = LlmResp.content js)
    (hNotErr : pyStartsWith (pyStrip js) "Error" = false)
    (hNotSent : (pyStrip js == "" || pyStartsWith (pyStrip js) "Failed to extract") = false)
    (hSim : env.similarity = SimResult.value sim)
    (hHigh : 70 ≤ computedScore sim)
    (hSend : env.send_result = true)
    (hSave : env.save_ok = true) :
    handle_request env filename jd w
      = (Response.body ⟨email, computedScore sim, true,
          "Candidate has passed the eligibility for interview and interview invitation sent successfully"⟩,
         { w with
             classifier_calls := w.classifier_calls + 1,
             summary_calls := w.summary_calls + 1,
             embed_calls := w.embed_calls + 1,
             email_attempts := w.email_attempts
               ++ [(email, invitationSubject, invitationBody (computedScore sim))],
             applications := (update_email_status email true w.applications).fst
               ++ [⟨email, (pyStrip t), jd, computedScore sim, true⟩] }) := by
  unfold handle_request
  rw [reach_lookup env filename jd w t email hGate hPath hFS hExtract hCls hEq hNe]
  rw [innerBlock_fresh_high_sent env email (pyStrip t) jd
    { w with classifier_calls := w.classifier_calls + 1 } js sim hMiss hSumm
    hNotErr hNotSent hSim hHigh hSend hSave]

/-- A fresh at-or-above-threshold request with a failed send, observed
at the interface. -/
lemma handle_fresh_high_unsent (env : Env) (filename jd : String) (w : World)
    (t email js : String) (sim : ℚ)
    (hGate : (pyEndsWith (pyLower filename) ".pdf" || pyEndsWith (pyLower filename) ".docx") = true)
    (hPath : (pyEndsWith ("uploads/" ++ filename) ".pdf"
        || pyEndsWith ("uploads/" ++ filename) ".docx") = true)
    (hFS : env.file_save_ok = true)
    (hExtract : env.extract_result = ExtractOutcome.ok t)
    (hCls : classifierAccepts env = true)
    (hEq : extract_email (pyStrip t) = email)
    (hNe : email ≠ "")
    (hMiss : get_exact_application_match email (pyStrip t) jd w.applications = none)
    (hSumm : env.summarizer_resp = LlmResp.content js)
    (hNotErr : pyStartsWith (pyStrip js) "Error" = false)
    (hNotSent : (pyStrip js == "" || pyStartsWith (pyStrip js) "Failed to extract") = false)
    (hSim : env.similarity = SimResult.value sim)
    (hHigh : 70 ≤ computedScore sim)
    (hSend : env.send_result = false)
    (hLog : env.log_ok = true)
    (hSave : env.save_ok = true) :
    handle_request env filename jd w
      = (Response.body ⟨email, computedScore sim, false,
          "Candidate has passed the eligibility for interview, but failed to send the email"⟩,
         { w with
             classifier_calls := w.classifier_calls + 1,
             summary_calls := w.summary_calls + 1,
             embed_calls := w.embed_calls + 1,
             error_logs := w.error_logs
               ++ ["Error occurred during sending the email from Resend tool: send failed"],
             email_attempts := w.email_attempts
               ++ [(email, invitationSubject, invitationBody (computedScore sim))],
             applications := w.applications
               ++ [⟨email, (pyStrip t), jd, computedScore sim, false⟩] }) := by
  unfold handle_request
  rw [reach_lookup env filename jd w t email hGate hPath hFS hExtract hCls hEq hNe]
  rw [innerBlock_fresh_high_unsent env email (pyStrip t) jd
    { w with classifier_calls := w.classifier_calls + 1 } js sim hMiss hSumm
    hNotErr hNotSent hSim hHigh hSend hLog hSave]

/-- A raised summarizer call is logged and its raw exception string is
returned; when that string does not start with "Error" the check of
the orchestrator misses it and the summary step passes it on as if it
were a summary. -/
lemma summaryStep_raised (env : Env) (jd : String) (w : World) (m : String)
    (hSumm : env.summarizer_resp = LlmResp.raised m)
    (hLog : env.log_ok = true)
    (hNotErr : pyStartsWith m "Error" = false) :
    summaryStep env jd w
      = (Except.ok m,
         { w with summary_calls := w.summary_calls + 1,
                  error_logs := w.error_logs
                    ++ ["Error occurred during generating the summary of the job description from Ollama: " ++ m] }) := by
  unfold summaryStep generate_summary
  rw [hSumm]
  simp [andThen, catchE, insert_error_log, hLog, hNotErr]

/-- A fresh request whose summarizer raised: the raw exception string
is scored as a job summary (one embedding call) and, below the
threshold, a row is persisted for the request. -/
lemma innerBlock_sentinel_scored (env : Env) (email rc jd : String) (w : World)
    (m : String) (sim : ℚ)
    (hMiss : get_exact_application_match email rc jd w.applications = none)
    (hSumm : env.summarizer_resp = LlmResp.raised m)
    (hLog : env.log_ok = true)
    (hNotErr : pyStartsWith m "Error" = false)
    (hNotSent : (m == "" || pyStartsWith m "Failed to extract") = false)
    (hSim : env.similarity = SimResult.value sim)
    (hLow : ¬ (70 ≤ computedScore sim))
    (hSave : env.save_ok = true) :
    innerBlock env email rc jd w
      = (Except.ok ⟨email, computedScore sim, false,
          "Candidate did not meet the minimum score requirement"⟩,
         { w with
             summary_calls := w.summary_calls + 1,
             embed_calls := w.embed_calls + 1,
             error_logs := w.error_logs
               ++ ["Error occurred during generating the summary of the job description from Ollama: " ++ m],
             applications := w.applications
               ++ [⟨email, rc, jd, computedScore sim, false⟩] }) := by
  unfold innerBlock innerBody
  rw [hMiss]
  rw [summaryStep_raised env jd _ m hSumm hLog hNotErr]
  simp only [andThen]
  rw [scoreStep_value env rc m _ sim hNotSent hSim]
  simp only [andThen]
  rw [notifyStep_low env email _ _ hLow]
  simp only [andThen]
  rw [saveStep_ok env email rc jd _ _ _ hSave]
  simp [catchE]

/-- The raised-summarizer path observed at the interface. -/
lemma handle_sentinel_scored (env : Env) (filename jd : String) (w : World)
    (t email m : String) (sim : ℚ)
    (hGate : (pyEndsWith (pyLower filename) ".pdf" || pyEndsWith (pyLower filename) ".docx") = true)
    (hPath : (pyEndsWith ("uploads/" ++ filename) ".pdf"
        || pyEndsWith ("uploads/" ++ filename) ".docx") = true)
    (hFS : env.file_save_ok = true)
    (hExtract : env.extract_result = ExtractOutcome.ok t)
    (hCls : classifierAccepts env = true)
    (hEq : extract_email (pyStrip t) = email)
    (hNe : email ≠ "")
    (hMiss : get_exact_application_match email (pyStrip t) jd w.applications = none)
    (hSumm : env.summarizer_resp = LlmResp.raised m)
    (hLog : env.log_ok = true)
    (hNotErr : pyStartsWith m "Error" = false)
    (hNotSent : (m == "" || pyStartsWith m "Failed to extract") = false)
    (hSim : env.similarity = SimResult.value sim)
    (hLow : ¬ (70 ≤ computedScore sim))
    (hSave : env.save_ok = true) :
    handle_request env filename jd w
      = (Response.body ⟨email, computedScore sim, false,
          "Candidate did not meet the minimum score requirement"⟩,
         { w with
             classifier_calls := w.classifier_calls + 1,
             summary_calls := w.summary_calls + 1,
             embed_calls := w.embed_calls + 1,
             error_logs := w.error_logs
               ++ ["Error occurred during generating the summary of the job description from Ollama: " ++ m],
             applications := w.applications
               ++ [⟨email, (pyStrip t), jd, computedScore sim, false⟩] }) := by
  unfold handle_request
  rw [reach_lookup env filename jd w t email hGate hPath hFS hExtract hCls hEq hNe]
  rw [innerBlock_sentinel_scored env email (pyStrip t) jd
    { w with classifier_calls := w.classifier_calls + 1 } m sim hMiss hSumm hLog
    hNotErr hNotSent hSim hLow hSave]

/-- The swallowed-commit-failure path observed at the interface: a
success body comes back and no row is stored. -/
lemma handle_fresh_low_nosave (env : Env) (filename jd : String) (w : World)
    (t email js : String) (sim : ℚ)
    (hGate : (pyEndsWith (pyLower filename) ".pdf" || pyEndsWith (pyLower filename) ".docx") = true)
    (hPath : (pyEndsWith ("uploads/" ++ filename) ".pdf"
        || pyEndsWith ("uploads/" ++ filename) ".docx") = true)
    (hFS : env.file_save_ok = true)
    (hExtract : env.extract_result = ExtractOutcome.ok t)
    (hCls : classifierAccepts env = true)
    (hEq : extract_email (pyStrip t) = email)
    (hNe : email ≠ "")
    (hMiss : get_exact_application_match email (pyStrip t) jd w.applications = none)
    (hSumm : env.summarizer_resp = LlmResp.content js)
    (hNotErr : pyStartsWith (pyStrip js) "Error" = false)
    (hNotSent : (pyStrip js == "" || pyStartsWith (pyStrip js) "Failed to extract") = false)
    (hSim : env.similarity = SimResult.value sim)
    (hLow : ¬ (70 ≤ computedScore sim))
    (hSave : env.save_ok = false) :
    handle_request env filename jd w
      = (Response.body ⟨email, computedScore sim, false,
          "Candidate did not meet the minimum score requirement"⟩,
         { w with
             classifier_calls := w.classifier_calls + 1,
             summary_calls := w.summary_calls + 1,
             embed_calls := w.embed_calls + 1 }) := by
  unfold handle_request
  rw [reach_lookup env filename jd w t email hGate hPath hFS hExtract hCls hEq hNe]
  rw [innerBlock_fresh_low_nosave env email (pyStrip t) jd
    { w with classifier_calls := w.classifier_calls + 1 } js sim hMiss hSumm
    hNotErr hNotSent hSim hLow hSave]

/-- A document the classifier rejects exits with the 400 before the
dedup lookup: only the classifier call and error-log rows are added. -/
lemma handle_nonresume (env : Env) (filename jd : String) (w : World) (t : String)
    (hGate : (pyEndsWith (pyLower filename) ".pdf" || pyEndsWith (pyLower filename) ".docx") = true)
    (hPath : (pyEndsWith ("uploads/" ++ filename) ".pdf"
        || pyEndsWith ("uploads/" ++ filename) ".docx") = true)
    (hFS : env.file_save_ok = true)
    (hExtract : env.extract_result = ExtractOutcome.ok t)
    (hLog : env.log_ok = true)
    (hCls : classifierAccepts env = false) :
    ∃ extra, handle_request env filename jd w
      = (Response.httpError 400
          "The uploaded document does not appear to be a resume. Please upload a valid resume document.",
         { w with classifier_calls := w.classifier_calls + 1,
                  error_logs := w.error_logs ++ extra
                    ++ ["Uploaded document is not a resume"] }) := by
  obtain ⟨extra, hv⟩ := validate_resume_rejects env (pyStrip t) w hLog hCls
  refine ⟨extra, ?_⟩
  unfold handle_request process_request process_request_main saveUploadStep extractStep extract_text
  rw [hGate]
  simp only [if_pos rfl, hFS, if_true, andThen, hPath, hExtract, catchE]
  rw [hv]
  simp only [andThen, Bool.false_eq_true, if_false]
  rw [insert_error_log_ok env _ _ hLog]
  simp only [andThen, catchE, outerHandler]

/-- A resume without an email exits with the 400 before the dedup
lookup: only the classifier call and one error-log row are added. -/
lemma handle_noemail (env : Env) (filename jd : String) (w : World) (t : String)
    (hGate : (pyEndsWith (pyLower filename) ".pdf" || pyEndsWith (pyLower filename) ".docx") = true)
    (hPath : (pyEndsWith ("uploads/" ++ filename) ".pdf"
        || pyEndsWith ("uploads/" ++ filename) ".docx") = true)
    (hFS : env.file_save_ok = true)
    (hExtract : env.extract_result = ExtractOutcome.ok t)
    (hCls : classifierAccepts env = true)
    (hLog : env.log_ok = true)
    (hNoE : extract_email (pyStrip t) = "") :
    handle_request env filename jd w
      = (Response.httpError 400 "No email address found in resume",
         { w with classifier_calls := w.classifier_calls + 1,
                  error_logs := w.error_logs
                    ++ ["No email address found in resume"] }) := by
  unfold handle_request process_request process_request_main saveUploadStep extractStep extract_text
  rw [hGate]
  simp only [if_pos rfl, hFS, if_true, andThen, hPath, hExtract, catchE]
  rw [validate_resume_accepts env (pyStrip t) w hCls]
  simp only [andThen, if_true, hNoE]
  rw [insert_error_log_ok env _ _ hLog]
  simp [andThen, catchE, outerHandler]

/-- C1: a request whose (email, resume_content, job_description)
triple exactly matches a stored row returns the stored email, score
and email_status at once — the returned world shows no summarizer
call, no embedding call, no delivery attempt, no new row and no log
row, only the classifier call of the validation stage — and
submitting an identical fresh triple twice returns the same score and
email_status both times while storing exactly one matching row. -/
theorem claim1_dedup_idempotent :
    (∀ (env : Env) (filename jd : String) (w : World) (t email : String)
        (app : Application),
      (pyEndsWith (pyLower filename) ".pdf" || pyEndsWith (pyLower filename) ".docx") = true →
      (pyEndsWith ("uploads/" ++ filename) ".pdf"
        || pyEndsWith ("uploads/" ++ filename) ".docx") = true →
      env.file_save_ok = true →
      env.extract_result = ExtractOutcome.ok t →
      classifierAccepts env = true →
      extract_email (pyStrip t) = email →
      email ≠ "" →
      get_exact_application_match email (pyStrip t) jd w.applications = some app →
      handle_request env filename jd w
        = (Response.body ⟨email, app.score, app.email_status,
            "Retrieved existing application score from database"⟩,
           { w with classifier_calls := w.classifier_calls + 1 }))
    ∧
    (∀ (env1 env2 : Env) (filename jd : String) (w : World) (t email js : String)
        (sim : ℚ),
      (pyEndsWith (pyLower filename) ".pdf" || pyEndsWith (pyLower filename) ".docx") = true →
      (pyEndsWith ("uploads/" ++ filename) ".pdf"
        || pyEndsWith ("uploads/" ++ filename) ".docx") = true →
      env1.file_save_ok = true →
      env1.extract_result = ExtractOutcome.ok t →
      classifierAccepts env1 = true →
      extract_email (pyStrip t) = email →
      email ≠ "" →
      env1.log_ok = true →
      env1.save_ok = true →
      get_exact_application_match email (pyStrip t) jd w.applications = none →
      env1.summarizer_resp = LlmResp.content js →
      pyStartsWith (pyStrip js) "Error" = false →
      (pyStrip js == "" || pyStartsWith (pyStrip js) "Failed to extract") = false →
      env1.similarity = SimResult.value sim →
      env2.file_save_ok = true →
      env2.extract_result = ExtractOutcome.ok t →
      classifierAccepts env2 = true →
      ∃ (w1 : World) (m1 : String) (sent : Bool),
        handle_request env1 filename jd w
          = (Response.body ⟨email, computedScore sim, sent, m1⟩, w1)
        ∧ handle_request env2 filename jd w1
          = (Response.body ⟨email, computedScore sim, sent,
              "Retrieved existing application score from database"⟩,
             { w1 with classifier_calls := w1.classifier_calls + 1 })
        ∧ countTriple email (pyStrip t) jd w1.applications = 1) := by
  constructor
  · intro env filename jd w t email app hGate hPath hFS hExtract hCls hEq hNe hHit
    exact handle_hit env filename jd w t email app hGate hPath hFS hExtract hCls hEq hNe hHit
  · intro env1 env2 filename jd w t email js sim hGate hPath hFS1 hEx1 hCls1 hEq hNe
      hLog1 hSave1 hMiss hSumm hNotErr hNotSent hSim hFS2 hEx2 hCls2
    have hNew : ∀ (b : Bool),
        get_exact_application_match email (pyStrip t) jd
          [(⟨email, (pyStrip t), jd, computedScore sim, b⟩ : Application)]
        = some ⟨email, (pyStrip t), jd, computedScore sim, b⟩ := by
      intro b
      simp [get_exact_application_match, tripleMatches_self]
    by_cases h70 : 70 ≤ computedScore sim
    · by_cases hSendT : env1.send_result = true
      · refine ⟨_, _, _,
          handle_fresh_high_sent env1 filename jd w t email js sim hGate hPath hFS1
            hEx1 hCls1 hEq hNe hMiss hSumm hNotErr hNotSent hSim h70 hSendT hSave1,
          ?_, ?_⟩
        · have hpre : get_exact_application_match email (pyStrip t) jd
              (update_email_status email true w.applications).fst = none :=
            gem_update_of_none email (pyStrip t) jd email true w.applications hMiss
          have hHit2 : get_exact_application_match email (pyStrip t) jd
              ((update_email_status email true w.applications).fst
                ++ [⟨email, (pyStrip t), jd, computedScore sim, true⟩])
              = some ⟨email, (pyStrip t), jd, computedScore sim, true⟩ := by
            rw [gem_append_of_none email (pyStrip t) jd _ _ hpre]
            exact hNew true
          exact handle_hit env2 filename jd _ t email
            ⟨email, (pyStrip t), jd, computedScore sim, true⟩ hGate hPath hFS2 hEx2 hCls2
            hEq hNe hHit2
        · show countTriple email (pyStrip t) jd
            ((update_email_status email true w.applications).fst
              ++ [⟨email, (pyStrip t), jd, computedScore sim, true⟩]) = 1
          rw [countTriple_append, countTriple_update,
            countTriple_zero_of_none email (pyStrip t) jd _ hMiss]
          simp [countTriple, tripleMatches_self]
      · have hSendF : env1.send_result = false := by
          cases h : env1.send_result
          · rfl
          · exact absurd h hSendT
        refine ⟨_, _, _,
          handle_fresh_high_unsent env1 filename jd w t email js sim hGate hPath hFS1
            hEx1 hCls1 hEq hNe hMiss hSumm hNotErr hNotSent hSim h70 hSendF hLog1 hSave1,
          ?_, ?_⟩
        · have hHit2 : get_exact_application_match email (pyStrip t) jd
              (w.applications ++ [⟨email, (pyStrip t), jd, computedScore sim, false⟩])
              = some ⟨email, (pyStrip t), jd, computedScore sim, false⟩ := by
            rw [gem_append_of_none email (pyStrip t) jd _ _ hMiss]
            exact hNew false
          exact handle_hit env2 filename jd _ t email
            ⟨email, (pyStrip t), jd, computedScore sim, false⟩ hGate hPath hFS2 hEx2 hCls2
            hEq hNe hHit2
        · show countTriple email (pyStrip t) jd
            (w.applications ++ [⟨email, (pyStrip t), jd, computedScore sim, false⟩]) = 1
          rw [countTriple_append, countTriple_zero_of_none email (pyStrip t) jd _ hMiss]
          simp [countTriple, tripleMatches_self]
    · refine ⟨_, _, _,
        handle_fresh_low env1 filename jd w t email js sim hGate hPath hFS1
          hEx1 hCls1 hEq hNe hMiss hSumm hNotErr hNotSent hSim h70 hSave1,
        ?_, ?_⟩
      · have hHit2 : get_exact_application_match email (pyStrip t) jd
            (w.applications ++ [⟨email, (pyStrip t), jd, computedScore sim, false⟩])
            = some ⟨email, (pyStrip t), jd, computedScore sim, false⟩ := by
          rw [gem_append_of_none email (pyStrip t) jd _ _ hMiss]
          exact hNew false
        exact handle_hit env2 filename jd _ t email
          ⟨email, (pyStrip t), jd, computedScore sim, false⟩ hGate hPath hFS2 hEx2 hCls2
          hEq hNe hHit2
      · show countTriple email (pyStrip t) jd
          (w.applications ++ [⟨email, (pyStrip t), jd, computedScore sim, false⟩]) = 1
        rw [countTriple_append, countTriple_zero_of_none email (pyStrip t) jd _ hMiss]
        simp [countTriple, tripleMatches_self]

/-- C2: on a fresh request that reaches the scoring stage with a
numeric score, a delivery attempt is recorded exactly when the score
is at least 70, and below 70 the new row is persisted with the
notification flag false. -/
theorem claim2_threshold_gate (env : Env) (filename jd : String) (w : World)
    (t email js : String) (sim : ℚ)
    (hGate : (pyEndsWith (pyLower filename) ".pdf" || pyEndsWith (pyLower filename) ".docx") = true)
    (hPath : (pyEndsWith ("uploads/" ++ filename) ".pdf"
        || pyEndsWith ("uploads/" ++ filename) ".docx") = true)
    (hFS : env.file_save_ok = true)
    (hExtract : env.extract_result = ExtractOutcome.ok t)
    (hCls : classifierAccepts env = true)
    (hEq : extract_email (pyStrip t) = email)
    (hNe : email ≠ "")
    (hMiss : get_exact_application_match email (pyStrip t) jd w.applications = none)
    (hSumm : env.summarizer_resp = LlmResp.content js)
    (hNotErr : pyStartsWith (pyStrip js) "Error" = false)
    (hNotSent : (pyStrip js == "" || pyStartsWith (pyStrip js) "Failed to extract") = false)
    (hSim : env.similarity = SimResult.value sim)
    (hLog : env.log_ok = true)
    (hSave : env.save_ok = true) :
    (handle_request env filename jd w).snd.email_attempts
      = w.email_attempts
        ++ (if 70 ≤ computedScore sim
            then [(email, invitationSubject, invitationBody (computedScore sim))]
            else [])
    ∧ (¬ (70 ≤ computedScore sim) →
        (handle_request env filename jd w).snd.applications
          = w.applications ++ [⟨email, (pyStrip t), jd, computedScore sim, false⟩]) := by
  by_cases h70 : 70 ≤ computedScore sim
  · refine ⟨?_, fun hc => absurd h70 hc⟩
    by_cases hSendT : env.send_result = true
    · rw [handle_fresh_high_sent env filename jd w t email js sim hGate hPath hFS
        hExtract hCls hEq hNe hMiss hSumm hNotErr hNotSent hSim h70 hSendT hSave]
      simp [if_pos h70]
    · have hSendF : env.send_result = false := by
        cases h : env.send_result
        · rfl
        · exact absurd h hSendT
      rw [handle_fresh_high_unsent env filename jd w t email js sim hGate hPath hFS
        hExtract hCls hEq hNe hMiss hSumm hNotErr hNotSent hSim h70 hSendF hLog hSave]
      simp [if_pos h70]
  · rw [handle_fresh_low env filename jd w t email js sim hGate hPath hFS
      hExtract hCls hEq hNe hMiss hSumm hNotErr hNotSent hSim h70 hSave]
    refine ⟨?_, fun _ => rfl⟩
    simp [if_neg h70]

/-- C7: a request whose document the classifier rejects, or whose
extracted text yields no email, ends in a 400 client error while the
stored rows, the summarizer calls, the embedding calls and the
delivery attempts all stay untouched. -/
theorem claim7_early_exit :
    (∀ (env : Env) (filename jd : String) (w : World) (t : String),
      (pyEndsWith (pyLower filename) ".pdf" || pyEndsWith (pyLower filename) ".docx") = true →
      (pyEndsWith ("uploads/" ++ filename) ".pdf"
        || pyEndsWith ("uploads/" ++ filename) ".docx") = true →
      env.file_save_ok = true →
      env.extract_result = ExtractOutcome.ok t →
      env.log_ok = true →
      classifierAccepts env = false →
      (handle_request env filename jd w).fst
          = Response.httpError 400
              "The uploaded document does not appear to be a resume. Please upload a valid resume document."
        ∧ (handle_request env filename jd w).snd.applications = w.applications
        ∧ (handle_request env filename jd w).snd.summary_calls = w.summary_calls
        ∧ (handle_request env filename jd w).snd.embed_calls = w.embed_calls
        ∧ (handle_request env filename jd w).snd.email_attempts = w.email_attempts)
    ∧ (∀ (env : Env) (filename jd : String) (w : World) (t : String),
      (pyEndsWith (pyLower filename) ".pdf" || pyEndsWith (pyLower filename) ".docx") = true →
      (pyEndsWith ("uploads/" ++ filename) ".pdf"
        || pyEndsWith ("uploads/" ++ filename) ".docx") = true →
      env.file_save_ok = true →
      env.extract_result = ExtractOutcome.ok t →
      env.log_ok = true →
      classifierAccepts env = true →
      extract_email (pyStrip t) = "" →
      (handle_request env filename jd w).fst
          = Response.httpError 400 "No email address found in resume"
        ∧ (handle_request env filename jd w).snd.applications = w.applications
        ∧ (handle_request env filename jd w).snd.summary_calls = w.summary_calls
        ∧ (handle_request env filename jd w).snd.embed_calls = w.embed_calls
        ∧ (handle_request env filename jd w).snd.email_attempts = w.email_attempts) := by
  constructor
  · intro env filename jd w t hGate hPath hFS hExtract hLog hCls
    obtain ⟨extra, heq⟩ := handle_nonresume env filename jd w t hGate hPath hFS hExtract hLog hCls
    rw [heq]
    simp
  · intro env filename jd w t hGate hPath hFS hExtract hLog hCls hNoE
    rw [handle_noemail env filename jd w t hGate hPath hFS hExtract hCls hLog hNoE]
    simp

/-- C8: a fresh request scoring at least 70 whose send fails still
persists the row with email_status false, and the response message
notes the failed send. -/
theorem claim8_send_failure_still_persists (env : Env) (filename jd : String)
    (w : World) (t email js : String) (sim : ℚ)
    (hGate : (pyEndsWith (pyLower filename) ".pdf" || pyEndsWith (pyLower filename) ".docx") = true)
    (hPath : (pyEndsWith ("uploads/" ++ filename) ".pdf"
        || pyEndsWith ("uploads/" ++ filename) ".docx") = true)
    (hFS : env.file_save_ok = true)
    (hExtract : env.extract_result = ExtractOutcome.ok t)
    (hCls : classifierAccepts env = true)
    (hEq : extract_email (pyStrip t) = email)
    (hNe : email ≠ "")
    (hMiss : get_exact_application_match email (pyStrip t) jd w.applications = none)
    (hSumm : env.summarizer_resp = LlmResp.content js)
    (hNotErr : pyStartsWith (pyStrip js) "Error" = false)
    (hNotSent : (pyStrip js == "" || pyStartsWith (pyStrip js) "Failed to extract") = false)
    (hSim : env.similarity = SimResult.value sim)
    (hHigh : 70 ≤ computedScore sim)
    (hSend : env.send_result = false)
    (hLog : env.log_ok = true)
    (hSave : env.save_ok = true) :
    handle_request env filename jd w
      = (Response.body ⟨email, computedScore sim, false,
          "Candidate has passed the eligibility for interview, but failed to send the email"⟩,
         { w with
             classifier_calls := w.classifier_calls + 1,
             summary_calls := w.summary_calls + 1,
             embed_calls := w.embed_calls + 1,
             error_logs := w.error_logs
               ++ ["Error occurred during sending the email from Resend tool: send failed"],
             email_attempts := w.email_attempts
               ++ [(email, invitationSubject, invitationBody (computedScore sim))],
             applications := w.applications
               ++ [⟨email, (pyStrip t), jd, computedScore sim, false⟩] }) :=
  handle_fresh_high_unsent env filename jd w t email js sim hGate hPath hFS hExtract
    hCls hEq hNe hMiss hSumm hNotErr hNotSent hSim hHigh hSend hLog hSave

/-- C10: on a confirmed send, the stored table becomes the by-email
status update of the pre-insert table followed by the newly inserted
row (whose true flag comes from the insert); the by-email update is a
no-op when no stored row carries the address, and otherwise rewrites
exactly the email_status of the first such row. -/
theorem claim10_flag_update_semantics :
    (∀ (env : Env) (filename jd : String) (w : World) (t email js : String) (sim : ℚ),
      (pyEndsWith (pyLower filename) ".pdf" || pyEndsWith (pyLower filename) ".docx") = true →
      (pyEndsWith ("uploads/" ++ filename) ".pdf"
        || pyEndsWith ("uploads/" ++ filename) ".docx") = true →
      env.file_save_ok = true →
      env.extract_result = ExtractOutcome.ok t →
      classifierAccepts env = true →
      extract_email (pyStrip t) = email →
      email ≠ "" →
      get_exact_application_match email (pyStrip t) jd w.applications = none →
      env.summarizer_resp = LlmResp.content js →
      pyStartsWith (pyStrip js) "Error" = false →
      (pyStrip js == "" || pyStartsWith (pyStrip js) "Failed to extract") = false →
      env.similarity = SimResult.value sim →
      70 ≤ computedScore sim →
      env.send_result = true →
      env.save_ok = true →
      (handle_request env filename jd w).snd.applications
        = (update_email_status email true w.applications).fst
          ++ [⟨email, (pyStrip t), jd, computedScore sim, true⟩])
    ∧ (∀ (email : String) (b : Bool) (apps : List Application),
        (∀ a ∈ apps, a.email ≠ email) →
        (update_email_status email b apps).fst = apps)
    ∧ (∀ (email : String) (b : Bool) (pre : List Application) (a : Application)
          (post : List Application),
        (∀ x ∈ pre, x.email ≠ email) → a.email = email →
        (update_email_status email b (pre ++ a :: post)).fst
          = pre ++ { a with email_status := b } :: post) := by
  refine ⟨?_, update_email_status_noop, update_email_status_first⟩
  intro env filename jd w t email js sim hGate hPath hFS hExtract hCls hEq hNe hMiss
    hSumm hNotErr hNotSent hSim hHigh hSend hSave
  rw [handle_fresh_high_sent env filename jd w t email js sim hGate hPath hFS
    hExtract hCls hEq hNe hMiss hSumm hNotErr hNotSent hSim hHigh hSend hSave]

/-- Extracted text used by the concrete test requests. -/
def tResume : String := "Resume of John john@x.com"

/-- Job summary content used by the concrete test requests. -/
def jsGood : String := "Python developer role"

/-- A fully healthy environment: every collaborator works, the
classifier accepts, similarity 0.7 scores exactly 70.00. -/
def envA : Env :=
  ⟨true, ExtractOutcome.ok tResume, LlmResp.content "true",
    LlmResp.content jsGood, SimResult.value (7/10), true, true, true⟩

/-- Healthy environment scoring exactly 69.99. -/
def envLo : Env := { envA with similarity := SimResult.value (6999/10000) }

/-- Healthy environment except the email transport fails. -/
def envSendFail : Env := { envA with send_result := false }

/-- Healthy environment except the database commit of the new row
fails; similarity 0.5 scores 50.00. -/
def envNoSave : Env :=
  { envA with save_ok := false, similarity := SimResult.value (1/2) }

/-- Healthy environment except the summarizer capability raises. -/
def envSummRaised : Env :=
  { envA with summarizer_resp := LlmResp.raised "connection refused",
              similarity := SimResult.value (1/2) }

/-- Healthy environment whose classifier answers with a capitalised
True. -/
def envCaseTrue : Env := { envA with classifier_resp := LlmResp.content "True" }

/-- Healthy environment whose classifier rejects the document. -/
def envReject : Env := { envA with classifier_resp := LlmResp.content "false" }

/-- Healthy environment whose document carries no email address. -/
def envNoEmailDoc : Env :=
  { envA with extract_result := ExtractOutcome.ok "Resume of John" }

/-- Healthy environment except the error-log store is down. -/
def envLogDown : Env := { envA with log_ok := false }

/-- C3 demonstration: with the database commit failing on a fresh
valid request, process_application still returns a 200 success body
carrying the computed score, no 500 is raised, and nothing is
persisted — save_application swallows the failure into a false return
value that the orchestrator ignores. -/
theorem claim3_save_failure_swallowed :
    handle_request envNoSave "resume.pdf" "jd" wEmpty
      = (Response.body ⟨"john@x.com", 50, false,
          "Candidate did not meet the minimum score requirement"⟩,
         ⟨[], [], 1, 1, 1, []⟩) := by
  have h50 : computedScore (1/2) = 50 := by
    norm_num [computedScore, pyRound2, round_eq]
  have h := handle_fresh_low_nosave envNoSave "resume.pdf" "jd" wEmpty tResume
    "john@x.com" jsGood (1/2) (by decide) (by decide) rfl rfl (by decide) (by decide)
    (by decide) rfl rfl (by decide) (by decide) rfl
    (by rw [h50]; norm_num) rfl
  rw [h50] at h
  exact h

/-- C4 demonstration: when the summarizer capability raises with the
message "connection refused", generate_summary returns that raw string
instead of a marked sentinel, the orchestrator check for the "Error"
marker misses it, the scorer embeds it as a job summary (one embedding
call recorded), and a row is persisted for the request. -/
theorem claim4_sentinel_passed_to_scorer :
    handle_request envSummRaised "resume.pdf" "jd" wEmpty
      = (Response.body ⟨"john@x.com", 50, false,
          "Candidate did not meet the minimum score requirement"⟩,
         ⟨[⟨"john@x.com", tResume, "jd", 50, false⟩],
          ["Error occurred during generating the summary of the job description from Ollama: connection refused"],
          1, 1, 1, []⟩) := by
  have h50 : computedScore (1/2) = 50 := by
    norm_num [computedScore, pyRound2, round_eq]
  have h := handle_sentinel_scored envSummRaised "resume.pdf" "jd" wEmpty tResume
    "john@x.com" "connection refused" (1/2) (by decide) (by decide) rfl rfl
    (by decide) (by decide) (by decide) rfl rfl rfl (by decide) (by decide) rfl
    (by rw [h50]; norm_num) rfl
  rw [h50] at h
  exact h

/-- C5 counterexample: a classifier answer that is not the literal
lowercase token true is nonetheless accepted, because the source
lowercases the response before comparing. -/
theorem claim5_counterexample :
    validate_resume envCaseTrue "some document" wEmpty
      = (Except.ok true, { wEmpty with classifier_calls := 1 })
    ∧ envCaseTrue.classifier_resp = LlmResp.content "True"
    ∧ ("True" = "true" → False) := by
  refine ⟨rfl, rfl, by decide⟩

/-- C5 amended: with the error-log store available, validate_resume
always returns without an exception, and yields true exactly when the
response content strips and lowercases to the token true — so
capability failures and missing messages classify as false, and
differently-cased variants of true are accepted. -/
theorem claim5_classifier_fail_closed (env : Env) (text : String) (w : World)
    (hLog : env.log_ok = true) :
    (validate_resume env text w).fst = Except.ok (classifierAccepts env) := by
  unfold validate_resume classifierAccepts
  cases env.classifier_resp <;> simp [insert_error_log, hLog, andThen]

/-- C6: every numeric result of calculate_score lies in [0, 100] and
is an integer number of hundredths; an empty or "Failed to extract"
marked summary short-circuits to exactly 0.0 with a world untouched by
any embedding call. -/
theorem claim6_score_range (env : Env) (resume_text job_summary : String) (w : World) :
    (∀ (q : ℚ) (w2 : World),
      calculate_score env resume_text job_summary w
        = (Except.ok (ScoreResult.num q), w2) →
      0 ≤ q ∧ q ≤ 100 ∧ ∃ n : ℤ, q = (n : ℚ) / 100)
    ∧ ((job_summary = "" ∨ pyStartsWith job_summary "Failed to extract" = true) →
      calculate_score env resume_text job_summary w
        = (Except.ok (ScoreResult.num 0), w)) := by
  constructor
  · intro q w2 h
    unfold calculate_score at h
    rcases hs : (job_summary == "" || pyStartsWith job_summary "Failed to extract") with _ | _
    · rw [hs] at h
      simp only [Bool.false_eq_true, if_false] at h
      cases hsim : env.similarity with
      | value s =>
        rw [hsim] at h
        rw [Prod.mk.injEq] at h
        obtain ⟨h1, -⟩ := h
        have h3 : computedScore s = q := by
          injection h1 with h4
          injection h4
        subst h3
        obtain ⟨h0, h1⟩ := computedScore_bounds s
        exact ⟨h0, h1, pyRound2_twoDec _⟩
      | raised m =>
        rw [hsim] at h
        rcases hLog : env.log_ok with _ | _ <;>
          simp [insert_error_log, hLog, andThen] at h
    · rw [hs] at h
      simp only [if_true] at h
      rw [Prod.mk.injEq] at h
      obtain ⟨h1, -⟩ := h
      have h3 : (0 : ℚ) = q := by
        injection h1 with h4
        injection h4
      subst h3
      refine ⟨le_refl 0, by norm_num, ⟨0, by norm_num⟩⟩
  · intro hs
    have hc : (job_summary == "" || pyStartsWith job_summary "Failed to extract") = true := by
      rcases hs with h | h
      · simp [h]
      · simp [h]
    unfold calculate_score
    rw [hc]
    simp

/-- C9 counterexample: with the error-log store down, a request with a
rejected file extension does not receive its 400 client error — the
failing insert_error_log raises, the outer handler tries to log again
and raises again, the original error is masked by a crash, and no log
entry is appended. -/
theorem claim9_counterexample :
    handle_request envLogDown "resume.txt" "jd" wEmpty
      = (Response.crash "error log insert failed", wEmpty) := by
  decide

/-- An exception that is an HTTPException. -/
def isHttpB : PyExn → Bool
  | PyExn.http _ _ => true
  | _ => false

/-- The logging discipline of one pipeline fragment run from world
w0: the error log only grows, and any raised exception is an
HTTPException preceded by at least one new log row. -/
def WellLogged {α : Type} (w0 : World) (r : Except PyExn α × World) : Prop :=
  w0.error_logs.length ≤ r.snd.error_logs.length
  ∧ ∀ e, r.fst = Except.error e →
      isHttpB e = true ∧ w0.error_logs.length + 1 ≤ r.snd.error_logs.length

/-- A normal return with no lost log rows is well logged. -/
lemma wellLogged_ok {α : Type} (w0 w1 : World) (a : α)
    (h : w0.error_logs.length ≤ w1.error_logs.length) :
    WellLogged w0 (Except.ok a, w1) :=
  ⟨h, fun _ he => by cases he⟩

/-- A normal return with the world untouched is well logged. -/
lemma wellLogged_refl {α : Type} (w0 : World) (a : α) :
    WellLogged w0 (Except.ok a, w0) :=
  wellLogged_ok w0 w0 a (le_refl _)

/-- Sequencing preserves the logging discipline. -/
lemma wellLogged_andThen {α β : Type} (w0 : World) (x : Except PyExn α × World)
    (f : α → World → Except PyExn β × World)
    (hx : WellLogged w0 x)
    (hf : ∀ a w1, x = (Except.ok a, w1) → WellLogged w1 (f a w1)) :
    WellLogged w0 (andThen x f) := by
  rcases x with ⟨r, w1⟩
  cases r with
  | error e =>
    simp only [andThen]
    refine ⟨hx.1, fun e2 he2 => ?_⟩
    cases he2
    exact hx.2 e rfl
  | ok a =>
    simp only [andThen]
    have hf1 := hf a w1 rfl
    exact ⟨le_trans hx.1 hf1.1,
      fun e he => ⟨(hf1.2 e he).1,
        le_trans (Nat.succ_le_succ hx.1) (hf1.2 e he).2⟩⟩

/-- The "log one row then raise an HTTPException" pattern is well
logged whenever the log store works. -/
lemma wellLogged_log_then_http {α : Type} (env : Env) (msg : String) (s : Nat)
    (d : String) (w : World) (hLog : env.log_ok = true) :
    WellLogged w (andThen (insert_error_log env msg w)
      (fun _ w2 => ((Except.error (PyExn.http s d) : Except PyExn α), w2))) := by
  rw [insert_error_log_ok env msg w hLog]
  simp only [andThen]
  refine ⟨by simp, ?_⟩
  intro e he
  cases he
  exact ⟨rfl, by simp⟩

/-- A try block whose handler passes HTTPException through unchanged
preserves the logging discipline. -/
lemma wellLogged_catch_pass {α : Type} (w0 : World) (x : Except PyExn α × World)
    (handler : PyExn → World → Except PyExn α × World)
    (hx : WellLogged w0 x)
    (hhandler : ∀ s d w1, handler (PyExn.http s d) w1
      = (Except.error (PyExn.http s d), w1)) :
    WellLogged w0 (catchE x handler) := by
  rcases x with ⟨r, w1⟩
  cases r with
  | ok a => simpa [catchE] using hx
  | error e =>
    obtain ⟨hhttp, hlen⟩ := hx.2 e rfl
    cases e with
    | http s d =>
      simp only [catchE]
      rw [hhandler s d w1]
      exact ⟨hx.1, fun e2 he2 => by cases he2; exact ⟨rfl, hlen⟩⟩
    | valueError m => simp [isHttpB] at hhttp
    | exn m => simp [isHttpB] at hhttp

/-- The upload-save step is well logged. -/
lemma wellLogged_saveUploadStep (env : Env) (w : World) (hLog : env.log_ok = true) :
    WellLogged w (saveUploadStep env w) := by
  unfold saveUploadStep
  cases hfs : env.file_save_ok
  · simp only [Bool.false_eq_true, if_false]
    exact wellLogged_log_then_http env _ 500 _ w hLog
  · simp only [if_true]
    exact wellLogged_refl w ()

/-- The extract step is well logged: both of its failure modes log in
extract_text and again in the orchestrator before the HTTPException. -/
lemma wellLogged_extractStep (env : Env) (fp : String) (w : World)
    (hLog : env.log_ok = true) :
    WellLogged w (extractStep env fp w) := by
  unfold extractStep extract_text
  cases hsuf : (pyEndsWith fp ".pdf" || pyEndsWith fp ".docx")
  · simp only [Bool.false_eq_true, if_false]
    rw [insert_error_log_ok env _ w hLog]
    simp only [andThen, catchE]
    rw [insert_error_log_ok env _ _ hLog]
    simp only [andThen]
    refine ⟨by simp, ?_⟩
    intro e he
    cases he
    exact ⟨rfl, by simp⟩
  · simp only [if_true]
    cases hex : env.extract_result with
    | ok t =>
      dsimp only
      simp only [catchE]
      exact wellLogged_refl w _
    | fail m =>
      dsimp only
      rw [insert_error_log_ok env _ w hLog]
      simp only [andThen, catchE]
      rw [insert_error_log_ok env _ _ hLog]
      simp only [andThen]
      refine ⟨by simp, ?_⟩
      intro e he
      cases he
      exact ⟨rfl, by simp⟩

/-- The validation step is well logged: it never raises when the log
store works. -/
lemma wellLogged_validate (env : Env) (t : String) (w : World)
    (hLog : env.log_ok = true) :
    WellLogged w (validate_resume env t w) := by
  unfold validate_resume
  cases hc : env.classifier_resp with
  | raised m =>
    dsimp only
    rw [insert_error_log_ok env _ _ hLog]
    simp only [andThen]
    exact wellLogged_ok _ _ _ (by simp)
  | noMessage => exact wellLogged_ok _ _ _ (by simp)
  | content c => exact wellLogged_ok _ _ _ (by simp)

/-- The summary step is well logged on every summarizer outcome. -/
lemma wellLogged_summaryStep (env : Env) (jd : String) (w : World)
    (hLog : env.log_ok = true) :
    WellLogged w (summaryStep env jd w) := by
  unfold summaryStep generate_summary
  cases hs : env.summarizer_resp with
  | raised m =>
    dsimp only
    rw [insert_error_log_ok env _ _ hLog]
    simp only [andThen]
    cases herr : pyStartsWith m "Error"
    · simp only [Bool.false_eq_true, if_false, catchE]
      exact wellLogged_ok _ _ _ (by simp)
    · simp only [if_true]
      rw [insert_error_log_ok env _ _ hLog]
      simp only [andThen, catchE]
      rw [insert_error_log_ok env _ _ hLog]
      simp only [andThen]
      refine ⟨by simp, ?_⟩
      intro e he
      cases he
      exact ⟨rfl, by simp [Nat.le_succ_of_le]⟩
  | noMessage =>
    dsimp only
    have hne : pyStartsWith "Failed to extract requirements: No response from model" "Error"
        = false := by decide
    simp only [andThen, hne, Bool.false_eq_true, if_false, catchE]
    exact wellLogged_refl _ _
  | content c =>
    dsimp only
    simp only [andThen]
    cases herr : pyStartsWith (pyStrip c) "Error"
    · simp only [Bool.false_eq_true, if_false, catchE]
      exact wellLogged_refl _ _
    · simp only [if_true]
      rw [insert_error_log_ok env _ _ hLog]
      simp only [andThen, catchE]
      rw [insert_error_log_ok env _ _ hLog]
      simp only [andThen]
      refine ⟨by simp, ?_⟩
      intro e he
      cases he
      exact ⟨rfl, by simp [Nat.le_succ_of_le]⟩

/-- The score step is well logged on every scorer outcome. -/
lemma wellLogged_scoreStep (env : Env) (rc js : String) (w : World)
    (hLog : env.log_ok = true) :
    WellLogged w (scoreStep env rc js w) := by
  unfold scoreStep calculate_score
  cases hsent : (js == "" || pyStartsWith js "Failed to extract")
  · simp only [Bool.false_eq_true, if_false]
    cases hsim : env.similarity with
    | value s =>
      dsimp only
      simp only [andThen, catchE]
      exact wellLogged_ok _ _ _ (by simp)
    | raised m =>
      dsimp only
      rw [insert_error_log_ok env _ _ hLog]
      simp only [andThen]
      rw [insert_error_log_ok env _ _ hLog]
      simp only [andThen, catchE]
      rw [insert_error_log_ok env _ _ hLog]
      simp only [andThen]
      refine ⟨by simp, ?_⟩
      intro e he
      cases he
      exact ⟨rfl, by simp [Nat.le_succ_of_le]⟩
  · simp only [if_true, andThen, catchE]
    exact wellLogged_refl _ _

/-- The threshold gate is well logged: it always returns normally. -/
lemma wellLogged_notifyStep (env : Env) (email : String) (score : ℚ) (w : World)
    (hLog : env.log_ok = true) :
    WellLogged w (notifyStep env email score w) := by
  unfold notifyStep send_interview_invitation send_email
  by_cases h70 : 70 ≤ score
  · rw [if_pos h70]
    cases hsend : env.send_result
    · dsimp only
      simp only [Bool.false_eq_true, if_false]
      rw [insert_error_log_ok env _ _ hLog]
      simp only [andThen, Bool.false_eq_true, if_false, catchE]
      exact wellLogged_ok _ _ _ (by simp)
    · dsimp only
      simp only [if_true, andThen, catchE]
      exact wellLogged_ok _ _ _ (by simp)
  · rw [if_neg h70]
    exact wellLogged_refl _ _

/-- The persistence step is well logged: save_application never
raises, on either commit outcome. -/
lemma wellLogged_saveStep (env : Env) (email rc jd : String) (score : ℚ)
    (sent : Bool) (w : World) :
    WellLogged w (saveStep env email rc jd score sent w) := by
  unfold saveStep save_application
  cases hsv : env.save_ok
  · simp only [Bool.false_eq_true, if_false, catchE]
    exact wellLogged_refl _ _
  · simp only [if_true, catchE]
    exact wellLogged_ok _ _ _ (by simp)

/-- The body of the big inner try is well logged. -/
lemma wellLogged_innerBody (env : Env) (email rc jd : String) (w : World)
    (hLog : env.log_ok = true) :
    WellLogged w (innerBody env email rc jd w) := by
  unfold innerBody
  cases hm : get_exact_application_match email rc jd w.applications with
  | some app => exact wellLogged_refl _ _
  | none =>
    dsimp only
    apply wellLogged_andThen w _ _ (wellLogged_summaryStep env jd w hLog)
    intro js w1 _
    apply wellLogged_andThen w1 _ _ (wellLogged_scoreStep env rc js w1 hLog)
    intro sc w2 _
    apply wellLogged_andThen w2 _ _ (wellLogged_notifyStep env email sc w2 hLog)
    intro sm w3 _
    apply wellLogged_andThen w3 _ _ (wellLogged_saveStep env email rc jd sc sm.fst w3)
    intro _ w4 _
    exact wellLogged_refl _ _

/-- The big inner try is well logged: its handler turns nothing into a
non-http error and passes HTTPException through. -/
lemma wellLogged_innerBlock (env : Env) (email rc jd : String) (w : World)
    (hLog : env.log_ok = true) :
    WellLogged w (innerBlock env email rc jd w) := by
  unfold innerBlock
  exact wellLogged_catch_pass w _ innerHandler
    (wellLogged_innerBody env email rc jd w hLog) (fun s d w1 => rfl)

/-- Everything inside the outer try is well logged. -/
lemma wellLogged_main (env : Env) (filename jd : String) (w : World)
    (hLog : env.log_ok = true) :
    WellLogged w (process_request_main env filename jd w) := by
  unfold process_request_main
  cases hgate : (pyEndsWith (pyLower filename) ".pdf" || pyEndsWith (pyLower filename) ".docx")
  · simp only [Bool.false_eq_true, if_false]
    exact wellLogged_log_then_http env _ 400 _ w hLog
  · simp only [if_true]
    apply wellLogged_andThen w _ _ (wellLogged_saveUploadStep env w hLog)
    intro _ w1 _
    apply wellLogged_andThen w1 _ _ (wellLogged_extractStep env _ w1 hLog)
    intro rc w2 _
    apply wellLogged_andThen w2 _ _ (wellLogged_validate env rc w2 hLog)
    intro isR w3 _
    cases isR
    · simp only [Bool.false_eq_true, if_false]
      exact wellLogged_log_then_http env _ 400 _ w3 hLog
    · simp only [if_true]
      cases he : (extract_email rc == "")
      · simp only [Bool.false_eq_true, if_false]
        exact wellLogged_innerBlock env _ rc jd w3 hLog
      · simp only [if_true]
        exact wellLogged_log_then_http env _ 400 _ w3 hLog

/-- The whole request handler is well logged when the log store
works. -/
lemma wellLogged_process (env : Env) (filename jd : String) (w : World)
    (hLog : env.log_ok = true) :
    WellLogged w (process_request env filename jd w) := by
  unfold process_request
  exact wellLogged_catch_pass w _ (outerHandler env)
    (wellLogged_main env filename jd w hLog) (fun s d w1 => rfl)

/-- C9 amended: when the error-log store works, every request that
ends in a failure response has appended at least one error-log row
before that response is returned. -/
theorem claim9_failures_logged (env : Env) (filename jd : String) (w : World)
    (hLog : env.log_ok = true)
    (hFail : isFailure (handle_request env filename jd w).fst = true) :
    w.error_logs.length + 1
      ≤ (handle_request env filename jd w).snd.error_logs.length := by
  have hwl := wellLogged_process env filename jd w hLog
  unfold handle_request at hFail ⊢
  rcases hpr : process_request env filename jd w with ⟨r, w2⟩
  rw [hpr] at hFail hwl
  cases r with
  | ok b => simp [isFailure] at hFail
  | error e =>
    obtain ⟨hhttp, hlen⟩ := hwl.2 e rfl
    cases e with
    | http s d => simpa using hlen
    | valueError m => simp [isHttpB] at hhttp
    | exn m => simp [isHttpB] at hhttp

/-- A store already holding the matching triple with score 55. -/
def wHit : World := ⟨[⟨"john@x.com", tResume, "jd", 55, false⟩], [], 0, 0, 0, []⟩

/-- A store holding one earlier application of the same contact with a
different resume and job description. -/
def wPrior : World := ⟨[⟨"john@x.com", "old resume text", "old jd", 40, false⟩], [], 0, 0, 0, []⟩

/-- Healthy environment whose classifier capability raises. -/
def envClsRaised : Env := { envA with classifier_resp := LlmResp.raised "classifier down" }

/-- Concrete instantiation of claim1_dedup_idempotent: a stored triple
is returned as-is, and a fresh healthy request followed by its exact
replay returns the same score and status with one stored row. -/
theorem claim1_witness :
    (handle_request envA "resume.pdf" "jd" wHit
      = (Response.body ⟨"john@x.com", 55, false,
          "Retrieved existing application score from database"⟩,
         { wHit with classifier_calls := wHit.classifier_calls + 1 }))
    ∧ (∃ (w1 : World) (m1 : String) (sent : Bool),
        handle_request envA "resume.pdf" "jd" wEmpty
          = (Response.body ⟨"john@x.com", computedScore (7/10), sent, m1⟩, w1)
        ∧ handle_request envA "resume.pdf" "jd" w1
          = (Response.body ⟨"john@x.com", computedScore (7/10), sent,
              "Retrieved existing application score from database"⟩,
             { w1 with classifier_calls := w1.classifier_calls + 1 })
        ∧ countTriple "john@x.com" (pyStrip tResume) "jd" w1.applications = 1) :=
  ⟨claim1_dedup_idempotent.1 envA "resume.pdf" "jd" wHit tResume "john@x.com"
      ⟨"john@x.com", tResume, "jd", 55, false⟩ (by decide) (by decide) rfl rfl
      (by decide) (by decide) (by decide) (by decide),
   claim1_dedup_idempotent.2 envA envA "resume.pdf" "jd" wEmpty tResume "john@x.com"
      jsGood (7/10) (by decide) (by decide) rfl rfl (by decide) (by decide)
      (by decide) rfl rfl rfl rfl (by decide) (by decide) rfl rfl rfl (by decide)⟩

/-- Concrete instantiation of claim2_threshold_gate at scores 70.00
and 69.99: the former records one delivery attempt, the latter records
none and persists with the flag false. -/
theorem claim2_witness :
    ((handle_request envA "resume.pdf" "jd" wEmpty).snd.email_attempts
      = wEmpty.email_attempts
        ++ (if 70 ≤ computedScore (7/10)
            then [("john@x.com", invitationSubject, invitationBody (computedScore (7/10)))]
            else []))
    ∧ ((handle_request envLo "resume.pdf" "jd" wEmpty).snd.email_attempts
      = wEmpty.email_attempts
        ++ (if 70 ≤ computedScore (6999/10000)
            then [("john@x.com", invitationSubject, invitationBody (computedScore (6999/10000)))]
            else []))
    ∧ (¬ (70 ≤ computedScore (6999/10000)) →
        (handle_request envLo "resume.pdf" "jd" wEmpty).snd.applications
          = wEmpty.applications
            ++ [⟨"john@x.com", pyStrip tResume, "jd", computedScore (6999/10000), false⟩]) :=
  ⟨(claim2_threshold_gate envA "resume.pdf" "jd" wEmpty tResume "john@x.com" jsGood
      (7/10) (by decide) (by decide) rfl rfl (by decide) (by decide) (by decide)
      rfl rfl (by decide) (by decide) rfl rfl rfl).1,
   (claim2_threshold_gate envLo "resume.pdf" "jd" wEmpty tResume "john@x.com" jsGood
      (6999/10000) (by decide) (by decide) rfl rfl (by decide) (by decide) (by decide)
      rfl rfl (by decide) (by decide) rfl rfl rfl).1,
   (claim2_threshold_gate envLo "resume.pdf" "jd" wEmpty tResume "john@x.com" jsGood
      (6999/10000) (by decide) (by decide) rfl rfl (by decide) (by decide) (by decide)
      rfl rfl (by decide) (by decide) rfl rfl rfl).2⟩

/-- Concrete instantiation of claim5_classifier_fail_closed on a
rejecting answer and on a raised capability call. -/
theorem claim5_witness :
    (validate_resume envReject "some document" wEmpty).fst
        = Except.ok (classifierAccepts envReject)
    ∧ (validate_resume envClsRaised "some document" wEmpty).fst
        = Except.ok (classifierAccepts envClsRaised) :=
  ⟨claim5_classifier_fail_closed envReject "some document" wEmpty rfl,
   claim5_classifier_fail_closed envClsRaised "some document" wEmpty rfl⟩

/-- Concrete instantiation of claim6_score_range: the score of a real
summary is bounded and two-decimal, and the empty summary scores
exactly zero without touching the world. -/
theorem claim6_witness :
    (0 ≤ computedScore (7/10) ∧ computedScore (7/10) ≤ 100
      ∧ ∃ n : ℤ, computedScore (7/10) = (n : ℚ) / 100)
    ∧ calculate_score envA "resume text" "" wEmpty
        = (Except.ok (ScoreResult.num 0), wEmpty) :=
  ⟨(claim6_score_range envA "resume text" jsGood wEmpty).1 (computedScore (7/10))
      { wEmpty with embed_calls := wEmpty.embed_calls + 1 } rfl,
   (claim6_score_range envA "resume text" "" wEmpty).2 (Or.inl rfl)⟩

/-- Concrete instantiation of claim7_early_exit on a rejected document
and on a document without an email address. -/
theorem claim7_witness :
    ((handle_request envReject "resume.pdf" "jd" wEmpty).fst
        = Response.httpError 400
            "The uploaded document does not appear to be a resume. Please upload a valid resume document."
      ∧ (handle_request envReject "resume.pdf" "jd" wEmpty).snd.applications
          = wEmpty.applications
      ∧ (handle_request envReject "resume.pdf" "jd" wEmpty).snd.summary_calls
          = wEmpty.summary_calls
      ∧ (handle_request envReject "resume.pdf" "jd" wEmpty).snd.embed_calls
          = wEmpty.embed_calls
      ∧ (handle_request envReject "resume.pdf" "jd" wEmpty).snd.email_attempts
          = wEmpty.email_attempts)
    ∧ ((handle_request envNoEmailDoc "resume.pdf" "jd" wEmpty).fst
        = Response.httpError 400 "No email address found in resume"
      ∧ (handle_request envNoEmailDoc "resume.pdf" "jd" wEmpty).snd.applications
          = wEmpty.applications
      ∧ (handle_request envNoEmailDoc "resume.pdf" "jd" wEmpty).snd.summary_calls
          = wEmpty.summary_calls
      ∧ (handle_request envNoEmailDoc "resume.pdf" "jd" wEmpty).snd.embed_calls
          = wEmpty.embed_calls
      ∧ (handle_request envNoEmailDoc "resume.pdf" "jd" wEmpty).snd.email_attempts
          = wEmpty.email_attempts) :=
  ⟨claim7_early_exit.1 envReject "resume.pdf" "jd" wEmpty tResume
      (by decide) (by decide) rfl rfl rfl (by decide),
   claim7_early_exit.2 envNoEmailDoc "resume.pdf" "jd" wEmpty "Resume of John"
      (by decide) (by decide) rfl rfl rfl (by decide) (by decide)⟩

/-- Concrete instantiation of claim8_send_failure_still_persists: the
score-70 request with a failing transport persists its row with the
flag false and notes the failure in the message. -/
theorem claim8_witness :
    handle_request envSendFail "resume.pdf" "jd" wEmpty
      = (Response.body ⟨"john@x.com", computedScore (7/10), false,
          "Candidate has passed the eligibility for interview, but failed to send the email"⟩,
         { wEmpty with
             classifier_calls := wEmpty.classifier_calls + 1,
             summary_calls := wEmpty.summary_calls + 1,
             embed_calls := wEmpty.embed_calls + 1,
             error_logs := wEmpty.error_logs
               ++ ["Error occurred during sending the email from Resend tool: send failed"],
             email_attempts := wEmpty.email_attempts
               ++ [("john@x.com", invitationSubject, invitationBody (computedScore (7/10)))],
             applications := wEmpty.applications
               ++ [⟨"john@x.com", pyStrip tResume, "jd", computedScore (7/10), false⟩] }) :=
  claim8_send_failure_still_persists envSendFail "resume.pdf" "jd" wEmpty tResume
    "john@x.com" jsGood (7/10) (by decide) (by decide) rfl rfl (by decide)
    (by decide) (by decide) rfl rfl (by decide) (by decide) rfl
    (by norm_num [computedScore, pyRound2, round_eq]) rfl rfl rfl

/-- Concrete instantiation of claim9_failures_logged: a rejected file
extension with the log store working produces a failure response and
at least one new log row. -/
theorem claim9_witness :
    isFailure (handle_request envA "resume.txt" "jd" wEmpty).fst = true
    ∧ wEmpty.error_logs.length + 1
        ≤ (handle_request envA "resume.txt" "jd" wEmpty).snd.error_logs.length :=
  ⟨by decide, claim9_failures_logged envA "resume.txt" "jd" wEmpty rfl (by decide)⟩

/-- Concrete instantiation of claim10_flag_update_semantics: a repeat
contact flips the earlier row, a first-ever contact is a no-op, and
the first-match rewrite is exact. -/
theorem claim10_witness :
    ((handle_request envA "resume.pdf" "jd" wPrior).snd.applications
      = (update_email_status "john@x.com" true wPrior.applications).fst
        ++ [⟨"john@x.com", pyStrip tResume, "jd", computedScore (7/10), true⟩])
    ∧ ((update_email_status "a@b" true
          [⟨"c@d", "r", "j", 10, false⟩]).fst = [⟨"c@d", "r", "j", 10, false⟩])
    ∧ ((update_email_status "a@b" true
          ([⟨"x@y", "r", "j", 10, false⟩] ++ ⟨"a@b", "r2", "j2", 20, false⟩ :: [])).fst
        = [⟨"x@y", "r", "j", 10, false⟩]
          ++ { (⟨"a@b", "r2", "j2", 20, false⟩ : Application) with email_status := true } :: []) :=
  ⟨claim10_flag_update_semantics.1 envA "resume.pdf" "jd" wPrior tResume "john@x.com"
      jsGood (7/10) (by decide) (by decide) rfl rfl (by decide) (by decide)
      (by decide) (by decide) rfl (by decide) (by decide) rfl
      (by norm_num [computedScore, pyRound2, round_eq]) rfl rfl,
   claim10_flag_update_semantics.2.1 "a@b" true [⟨"c@d", "r", "j", 10, false⟩]
      (by decide),
   claim10_flag_update_semantics.2.2 "a@b" true [⟨"x@y", "r", "j", 10, false⟩]
      ⟨"a@b", "r2", "j2", 20, false⟩ [] (by decide) rfl⟩

end JobApp
